import Mathlib

/-!
Verification development for the SysLint linter core: a shallow embedding of
the tokenizer (src/linter/lexer.py, token_types.py), the recursive-descent
parser (src/linter/parser.py), and the rule engine with its four rules
(src/linter/checker.py, rules/), together with theorems settling the
specification claims about them.

Conventions of the embedding:
* Source text is a `List Char` with an explicit (line, col) position, consumed
  from the front; this models the Python scan cursor `pos` into a fixed string.
* The token stream is a fixed `List Token` plus a cursor `pos : Nat`, exactly
  as in the Python parser; reading past the end yields a synthetic EOF token,
  modelling `Parser._cur`.
* Loops of the Python code that provably advance the cursor are translated as
  well-founded recursion on the remaining length.  The mutually recursive
  element/body parsing functions take an explicit fuel argument (the Python
  code has an actually reachable infinite loop there, see the theorems on
  claim C2); `none` means the fuel ran out.
* Python string truthiness (`if name:`) is rendered as a comparison with the
  empty string / `Option.none`.
-/

set_option maxHeartbeats 2000000

namespace SysLint

/-! ## Token vocabulary (token_types.py) -/

inductive TokenType where
  | ABOUT | ABSTRACT | ACCEPT
  | ACTION | ACTOR | AFTER
  | ALIAS | ALL | ALLOCATE
  | ALLOCATION | ANALYSIS | AND
  | AS | ASSERT | ASSIGN
  | ASSOC | ASSUME | AT
  | ATTRIBUTE | BEHAVIOR | BIND
  | BINDING | BOOL | BY
  | CALC | CASE | CHAINS
  | CLASS | CLASSIFIER | COMMENT
  | COMPOSITE | CONCERN | CONJUGATE
  | CONJUGATES | CONJUGATION | CONNECT
  | CONNECTION | CONNECTOR | CONST
  | CONSTANT | CONSTRAINT | CROSSES
  | DATATYPE | DECIDE | DEF
  | DEFAULT | DEFINED | DEPENDENCY
  | DERIVED | DIFFERENCES | DISJOINING
  | DISJOINT | DO | DOC
  | ELSE | END | ENTRY
  | ENUM | EVENT | EXHIBIT
  | EXIT | EXPOSE | EXPR
  | FALSE | FEATURE | FEATURED
  | FEATURING | FILTER | FIRST
  | FLOW | FOR | FORK
  | FRAME | FROM | FUNCTION
  | HASTYPE | IF | IMPLIES
  | IMPORT | IN | INCLUDE
  | INDIVIDUAL | INOUT | INTERACTION
  | INTERFACE | INTERSECTS | INV
  | INVERSE | INVERTING | ISTYPE
  | ITEM | JOIN | LANGUAGE
  | LIBRARY | LOCALE | LOOP
  | MEMBER | MERGE | MESSAGE
  | META | METACLASS | METADATA
  | MULTIPLICITY | NAMESPACE | NEW
  | NONUNIQUE | NOT | NULL
  | OBJECTIVE | OCCURRENCE | OF
  | OR | ORDERED | OUT
  | PACKAGE | PARALLEL | PART
  | PERFORM | PORT | PORTION
  | PREDICATE | PRIVATE | PROTECTED
  | PUBLIC | REDEFINES | REDEFINITION
  | REF | REFERENCES | RENDER
  | RENDERING | REP | REQUIRE
  | REQUIREMENT | RETURN | SATISFY
  | SEND | SNAPSHOT | SPECIALIZATION
  | SPECIALIZES | STAKEHOLDER | STANDARD
  | STATE | STEP | STRUCT
  | SUBCLASSIFIER | SUBJECT | SUBSET
  | SUBSETS | SUBTYPE | SUCCESSION
  | TERMINATE | THEN | TIMESLICE
  | TO | TRANSITION | TRUE
  | TYPE | TYPED | TYPING
  | UNIONS | UNTIL | USE
  | VAR | VARIANT | VARIATION
  | VERIFICATION | VERIFY | VIA
  | VIEW | VIEWPOINT | WHEN
  | WHILE | XOR
  -- Compound operators (longer patterns matched first)
  | BANG_EQ_EQ
  | COLON_COLON_GT
  | COLON_GT_GT
  | EQ_EQ_EQ
  | BANG_EQ
  | STAR_STAR
  | ARROW
  | DOT_DOT
  | DOT_QUESTION
  | COLON_COLON
  | COLON_EQ
  | COLON_GT
  | LE
  | EQ_EQ
  | FAT_ARROW
  | GE
  | QUESTION_QUESTION
  | AT_AT
  -- Single-char operators
  | HASH | DOLLAR | PERCENT
  | AMP | LPAREN | RPAREN
  | STAR | PLUS | COMMA
  | MINUS | DOT | SLASH
  | COLON | SEMI | LT
  | EQ | GT | QUESTION
  | AT_SIGN | LBRACK | RBRACK
  | CARET | LBRACE | PIPE
  | RBRACE | TILDE
  -- Literals
  | IDENTIFIER
  | STRING
  | DOUBLE_STRING
  | INTEGER
  | REAL
  -- Comments
  | BLOCK_COMMENT
  | LINE_COMMENT
  | EOF
deriving DecidableEq, Repr

structure Token where
  type : TokenType
  value : String
  line : Nat
  col : Nat
deriving DecidableEq, Repr

/-- Mapping from keyword string to TokenType (the KEYWORDS table). -/
def KEYWORDS_1 : List (String × TokenType) := [
  ("about", .ABOUT), ("abstract", .ABSTRACT),
  ("accept", .ACCEPT), ("action", .ACTION),
  ("actor", .ACTOR), ("after", .AFTER),
  ("alias", .ALIAS), ("all", .ALL),
  ("allocate", .ALLOCATE), ("allocation", .ALLOCATION),
  ("analysis", .ANALYSIS), ("and", .AND),
  ("as", .AS), ("assert", .ASSERT),
  ("assign", .ASSIGN), ("assoc", .ASSOC),
  ("assume", .ASSUME), ("at", .AT)
]

def KEYWORDS_2 : List (String × TokenType) := [
  ("attribute", .ATTRIBUTE), ("behavior", .BEHAVIOR),
  ("bind", .BIND), ("binding", .BINDING),
  ("bool", .BOOL), ("by", .BY),
  ("calc", .CALC), ("case", .CASE),
  ("chains", .CHAINS), ("class", .CLASS),
  ("classifier", .CLASSIFIER), ("comment", .COMMENT),
  ("composite", .COMPOSITE), ("concern", .CONCERN),
  ("conjugate", .CONJUGATE), ("conjugates", .CONJUGATES),
  ("conjugation", .CONJUGATION), ("connect", .CONNECT)
]

def KEYWORDS_3 : List (String × TokenType) := [
  ("connection", .CONNECTION), ("connector", .CONNECTOR),
  ("const", .CONST), ("constant", .CONSTANT),
  ("constraint", .CONSTRAINT), ("crosses", .CROSSES),
  ("datatype", .DATATYPE), ("decide", .DECIDE),
  ("def", .DEF), ("default", .DEFAULT),
  ("defined", .DEFINED), ("dependency", .DEPENDENCY),
  ("derived", .DERIVED), ("differences", .DIFFERENCES),
  ("disjoining", .DISJOINING), ("disjoint", .DISJOINT),
  ("do", .DO), ("doc", .DOC)
]

def KEYWORDS_4 : List (String × TokenType) := [
  ("else", .ELSE), ("end", .END),
  ("entry", .ENTRY), ("enum", .ENUM),
  ("event", .EVENT), ("exhibit", .EXHIBIT),
  ("exit", .EXIT), ("expose", .EXPOSE),
  ("expr", .EXPR), ("false", .FALSE),
  ("feature", .FEATURE), ("featured", .FEATURED),
  ("featuring", .FEATURING), ("filter", .FILTER),
  ("first", .FIRST), ("flow", .FLOW),
  ("for", .FOR), ("fork", .FORK)
]

def KEYWORDS_5 : List (String × TokenType) := [
  ("frame", .FRAME), ("from", .FROM),
  ("function", .FUNCTION), ("hastype", .HASTYPE),
  ("if", .IF), ("implies", .IMPLIES),
  ("import", .IMPORT), ("in", .IN),
  ("include", .INCLUDE), ("individual", .INDIVIDUAL),
  ("inout", .INOUT), ("interaction", .INTERACTION),
  ("interface", .INTERFACE), ("intersects", .INTERSECTS),
  ("inv", .INV), ("inverse", .INVERSE),
  ("inverting", .INVERTING), ("istype", .ISTYPE)
]

def KEYWORDS_6 : List (String × TokenType) := [
  ("item", .ITEM), ("join", .JOIN),
  ("language", .LANGUAGE), ("library", .LIBRARY),
  ("locale", .LOCALE), ("loop", .LOOP),
  ("member", .MEMBER), ("merge", .MERGE),
  ("message", .MESSAGE), ("meta", .META),
  ("metaclass", .METACLASS), ("metadata", .METADATA),
  ("multiplicity", .MULTIPLICITY), ("namespace", .NAMESPACE),
  ("new", .NEW), ("nonunique", .NONUNIQUE),
  ("not", .NOT), ("null", .NULL)
]

def KEYWORDS_7 : List (String × TokenType) := [
  ("objective", .OBJECTIVE), ("occurrence", .OCCURRENCE),
  ("of", .OF), ("or", .OR),
  ("ordered", .ORDERED), ("out", .OUT),
  ("package", .PACKAGE), ("parallel", .PARALLEL),
  ("part", .PART), ("perform", .PERFORM),
  ("port", .PORT), ("portion", .PORTION),
  ("predicate", .PREDICATE), ("private", .PRIVATE),
  ("protected", .PROTECTED), ("public", .PUBLIC),
  ("redefines", .REDEFINES), ("redefinition", .REDEFINITION)
]

def KEYWORDS_8 : List (String × TokenType) := [
  ("ref", .REF), ("references", .REFERENCES),
  ("render", .RENDER), ("rendering", .RENDERING),
  ("rep", .REP), ("require", .REQUIRE),
  ("requirement", .REQUIREMENT), ("return", .RETURN),
  ("satisfy", .SATISFY), ("send", .SEND),
  ("snapshot", .SNAPSHOT), ("specialization", .SPECIALIZATION),
  ("specializes", .SPECIALIZES), ("stakeholder", .STAKEHOLDER),
  ("standard", .STANDARD), ("state", .STATE),
  ("step", .STEP), ("struct", .STRUCT)
]

def KEYWORDS_9 : List (String × TokenType) := [
  ("subclassifier", .SUBCLASSIFIER), ("subject", .SUBJECT),
  ("subset", .SUBSET), ("subsets", .SUBSETS),
  ("subtype", .SUBTYPE), ("succession", .SUCCESSION),
  ("terminate", .TERMINATE), ("then", .THEN),
  ("timeslice", .TIMESLICE), ("to", .TO),
  ("transition", .TRANSITION), ("true", .TRUE),
  ("type", .TYPE), ("typed", .TYPED),
  ("typing", .TYPING), ("unions", .UNIONS),
  ("until", .UNTIL), ("use", .USE)
]

def KEYWORDS_10 : List (String × TokenType) := [
  ("var", .VAR), ("variant", .VARIANT),
  ("variation", .VARIATION), ("verification", .VERIFICATION),
  ("verify", .VERIFY), ("via", .VIA),
  ("view", .VIEW), ("viewpoint", .VIEWPOINT),
  ("when", .WHEN), ("while", .WHILE),
  ("xor", .XOR)
]

def KEYWORDS : List (String × TokenType) :=
  KEYWORDS_1 ++ KEYWORDS_2 ++ KEYWORDS_3 ++ KEYWORDS_4 ++ KEYWORDS_5 ++ KEYWORDS_6 ++ KEYWORDS_7 ++ KEYWORDS_8 ++ KEYWORDS_9 ++ KEYWORDS_10

/-- `KEYWORDS.get(value, TokenType.IDENTIFIER)`. -/
def keywordLookup (s : String) : TokenType :=
  match KEYWORDS.find? (fun p => p.1 == s) with
  | some p => p.2
  | none => TokenType.IDENTIFIER

/-! ## Lexer (lexer.py)

The Python lexer scans `self.source` with a cursor `self.pos` and tracks
`self.line` / `self.col`; `_advance` moves one char, resetting the column on a
newline.  Here the not-yet-consumed suffix of the source is carried directly.
-/

/-- Line/column update of `Lexer._advance` for one consumed character. -/
def bump (ch : Char) (l c : Nat) : Nat × Nat :=
  if ch = '\n' then (l + 1, 1) else (l, c + 1)

/-- The whitespace set of `Lexer._skip_whitespace` (" \t\r\n"). -/
def isWsChar (ch : Char) : Bool :=
  ch = ' ' || ch = '\t' || ch = '\r' || ch = '\n'

/-- `Lexer._skip_whitespace`: consume leading whitespace, tracking line/col. -/
def skipWs : List Char → Nat → Nat → List Char × Nat × Nat
  | [], l, c => ([], l, c)
  | ch :: rest, l, c =>
    if isWsChar ch then
      let (l', c') := bump ch l c
      skipWs rest l' c'
    else (ch :: rest, l, c)

/-- Body of the `//` line-comment scan: consume up to (not including) the next
newline.  Returns (consumed, remaining, line, col). -/
def takeLineComment : List Char → Nat → Nat → List Char × List Char × Nat × Nat
  | [], l, c => ([], [], l, c)
  | ch :: rest, l, c =>
    if ch = '\n' then ([], ch :: rest, l, c)
    else
      let (tk, rem, l', c') := takeLineComment rest l (c + 1)
      (ch :: tk, rem, l', c')

/-- Body of the `/* ... */` scan after the opening two chars: consume through
the closing marker or to end of input. -/
def takeBlockComment : List Char → Nat → Nat → List Char × List Char × Nat × Nat
  | '*' :: '/' :: rest, l, c => (['*', '/'], rest, l, c + 2)
  | [], l, c => ([], [], l, c)
  | ch :: rest, l, c =>
    let (l', c') := bump ch l c
    let (tk, rem, l2, c2) := takeBlockComment rest l' c'
    (ch :: tk, rem, l2, c2)

/-- Identifier-character test of the lexer (`isalnum() or "_"`, ASCII scope). -/
def isIdentChar (ch : Char) : Bool := ch.isAlphanum || ch = '_'

/-- Greedy run of identifier characters. -/
def takeIdent : List Char → List Char × List Char
  | [] => ([], [])
  | ch :: rest =>
    if isIdentChar ch then
      let (tk, rem) := takeIdent rest
      (ch :: tk, rem)
    else ([], ch :: rest)

/-- Greedy run of decimal digits. -/
def takeDigits : List Char → List Char × List Char
  | [] => ([], [])
  | ch :: rest =>
    if ch.isDigit then
      let (tk, rem) := takeDigits rest
      (ch :: tk, rem)
    else ([], ch :: rest)

/-- `Lexer._lex_number`: leading digits, an optional fraction whose dot must be
followed by a digit, and an optional exponent with optional sign. -/
def lexNumber (input : List Char) (l c : Nat) : Token × (List Char × Nat × Nat) :=
  let (d1, r1) := takeDigits input
  let (real1, d2, r2) :=
    match r1 with
    | '.' :: r1' =>
      match r1'.head? with
      | some ch2 =>
        if ch2.isDigit then
          let (ds, r'') := takeDigits r1'
          (true, '.' :: ds, r'')
        else (false, ([] : List Char), '.' :: r1')
      | none => (false, ([] : List Char), '.' :: r1')
    | _ => (false, ([] : List Char), r1)
  let (real2, d3, r3) :=
    match r2 with
    | ch :: r2' =>
      if ch = 'e' ∨ ch = 'E' then
        let (sgn, r2'') :=
          match r2' with
          | s :: rr => if s = '+' ∨ s = '-' then ([s], rr) else (([] : List Char), s :: rr)
          | [] => (([] : List Char), ([] : List Char))
        let (ds, rf) := takeDigits r2''
        (true, ch :: (sgn ++ ds), rf)
      else (false, ([] : List Char), ch :: r2')
    | [] => (false, ([] : List Char), ([] : List Char))
  let chars := d1 ++ d2 ++ d3
  (Token.mk (if real1 || real2 then .REAL else .INTEGER) (String.mk chars) l c,
   (r3, l, c + chars.length))

/-- Body of `Lexer._lex_string` after the opening quote: a backslash escapes
the next character unconditionally; an unterminated string consumes to the end
of input.  Returns (consumed, remaining, line, col). -/
def takeStringBody (quote : Char) : List Char → Nat → Nat → List Char × List Char × Nat × Nat
  | [], l, c => ([], [], l, c)
  | '\\' :: rest, l, c =>
    match rest with
    | [] => (['\\'], [], l, c + 1)
    | ch2 :: rest2 =>
      let (l1, c1) := bump ch2 l (c + 1)
      let (tk, rem, l2, c2) := takeStringBody quote rest2 l1 c1
      ('\\' :: ch2 :: tk, rem, l2, c2)
  | ch :: rest, l, c =>
    if ch = quote then ([ch], rest, l, c + 1)
    else
      let (l1, c1) := bump ch l c
      let (tk, rem, l2, c2) := takeStringBody quote rest l1 c1
      (ch :: tk, rem, l2, c2)

/-- `rest.startswith(pat)` on char lists. -/
def leadsWith : List Char → List Char → Bool
  | [], _ => true
  | _ :: _, [] => false
  | p :: ps, x :: xs => p == x && leadsWith ps xs

/-- The `_SINGLE` one-character operator table. -/
def singleCharToken (ch : Char) : Option TokenType :=
  if ch = '#' then some .HASH else
  if ch = '$' then some .DOLLAR else
  if ch = '%' then some .PERCENT else
  if ch = '&' then some .AMP else
  if ch = '(' then some .LPAREN else
  if ch = ')' then some .RPAREN else
  if ch = '+' then some .PLUS else
  if ch = ',' then some .COMMA else
  if ch = '/' then some .SLASH else
  if ch = ';' then some .SEMI else
  if ch = '[' then some .LBRACK else
  if ch = ']' then some .RBRACK else
  if ch = '^' then some .CARET else
  if ch = '{' then some .LBRACE else
  if ch = '|' then some .PIPE else
  if ch = '}' then some .RBRACE else
  if ch = '~' then some .TILDE else
  none

/-- Operator dispatch of `Lexer._next_token` after the first character `ch`
has been consumed; `rest` is the remaining input, `(l, c)` the token start
position and `c1` the column after `ch`. -/
def opToken (ch : Char) (rest : List Char) (l c c1 : Nat) :
    Token × (List Char × Nat × Nat) :=
  let emit (k : Nat) (t : TokenType) (v : String) : Token × (List Char × Nat × Nat) :=
    (Token.mk t v l c, (rest.drop k, l, c1 + k))
  if ch = '!' then
    if leadsWith ['=', '='] rest then emit 2 .BANG_EQ_EQ "!==" else
    if leadsWith ['='] rest then emit 1 .BANG_EQ "!=" else
    emit 0 .IDENTIFIER "!"
  else if ch = ':' then
    if leadsWith [':', '>'] rest then emit 2 .COLON_COLON_GT "::>" else
    if leadsWith ['>', '>'] rest then emit 2 .COLON_GT_GT ":>>" else
    if leadsWith [':'] rest then emit 1 .COLON_COLON "::" else
    if leadsWith ['>'] rest then emit 1 .COLON_GT ":>" else
    if leadsWith ['='] rest then emit 1 .COLON_EQ ":=" else
    emit 0 .COLON ":"
  else if ch = '=' then
    if leadsWith ['=', '='] rest then emit 2 .EQ_EQ_EQ "===" else
    if leadsWith ['='] rest then emit 1 .EQ_EQ "==" else
    if leadsWith ['>'] rest then emit 1 .FAT_ARROW "=>" else
    emit 0 .EQ "="
  else if ch = '*' then
    if leadsWith ['*'] rest then emit 1 .STAR_STAR "**" else
    emit 0 .STAR "*"
  else if ch = '-' then
    if leadsWith ['>'] rest then emit 1 .ARROW "->" else
    emit 0 .MINUS "-"
  else if ch = '.' then
    if leadsWith ['.'] rest then emit 1 .DOT_DOT ".." else
    if leadsWith ['?'] rest then emit 1 .DOT_QUESTION ".?" else
    emit 0 .DOT "."
  else if ch = '<' then
    if leadsWith ['='] rest then emit 1 .LE "<=" else
    emit 0 .LT "<"
  else if ch = '>' then
    if leadsWith ['='] rest then emit 1 .GE ">=" else
    emit 0 .GT ">"
  else if ch = '?' then
    if leadsWith ['?'] rest then emit 1 .QUESTION_QUESTION "??" else
    emit 0 .QUESTION "?"
  else if ch = '@' then
    if leadsWith ['@'] rest then emit 1 .AT_AT "@@" else
    emit 0 .AT_SIGN "@"
  else
    match singleCharToken ch with
    | some t => emit 0 t (String.mk [ch])
    | none => emit 0 .IDENTIFIER (String.mk [ch])

/-- `Lexer._next_token`: skip whitespace, then produce the next token from the
remaining input.  Returns the token and the new (input, line, col). -/
def nextToken (input : List Char) (line col : Nat) : Token × (List Char × Nat × Nat) :=
  let (inp, l, c) := skipWs input line col
  match inp with
  | [] => (Token.mk .EOF "" l c, ([], l, c))
  | ch :: rest =>
    if ch = '/' && leadsWith ['/'] rest then
      let (tk, rem, l', c') := takeLineComment (ch :: rest) l c
      (Token.mk .LINE_COMMENT (String.mk tk) l c, (rem, l', c'))
    else if ch = '/' && leadsWith ['*'] rest then
      let (tk, rem, l', c') := takeBlockComment (rest.drop 1) l (c + 2)
      (Token.mk .BLOCK_COMMENT (String.mk ('/' :: '*' :: tk)) l c, (rem, l', c'))
    else if ch.isAlpha || ch = '_' then
      let (tk, rem) := takeIdent (ch :: rest)
      let value := String.mk tk
      (Token.mk (keywordLookup value) value l c, (rem, l, c + tk.length))
    else if ch.isDigit then
      lexNumber (ch :: rest) l c
    else if ch = '.' && (match rest.head? with | some d => d.isDigit | none => false) then
      lexNumber (ch :: rest) l c
    else if ch = '\'' then
      let (tk, rem, l', c') := takeStringBody '\'' rest l (c + 1)
      (Token.mk .STRING (String.mk (ch :: tk)) l c, (rem, l', c'))
    else if ch = '"' then
      let (tk, rem, l', c') := takeStringBody '"' rest l (c + 1)
      (Token.mk .DOUBLE_STRING (String.mk (ch :: tk)) l c, (rem, l', c'))
    else
      opToken ch rest l c (c + 1)

/-- The `Lexer.tokenize` loop with explicit fuel; one unit of fuel per emitted
token.  Each non-EOF token consumes at least one character, so
`input.length + 1` units never run out. -/
def tokenizeGo : Nat → List Char → Nat → Nat → List Token
  | 0, _, _, _ => []
  | fuel + 1, input, line, col =>
    let (tok, rest) := nextToken input line col
    if tok.type = TokenType.EOF then [tok]
    else tok :: tokenizeGo fuel rest.1 rest.2.1 rest.2.2

namespace Lexer

/-- `Lexer.tokenize`: the full token list of a source text, ending in EOF. -/
def tokenize (source : String) : List Token :=
  tokenizeGo (source.length + 1) source.data 1 1

end Lexer

/-! ## Python string helpers

Renderings of the Python string methods the linter uses (`strip`, `lower`,
`splitlines`, `capitalize`, `re.split`), restricted to the ASCII characters
the linter's own data contains.
-/

/-- The whitespace set of Python `str.strip()`. -/
def isPyStripSpace (c : Char) : Bool :=
  c = ' ' || c = '\t' || c = '\n' || c = '\r' || c = '\x0b' || c = '\x0c'

/-- Python `s.strip()`. -/
def pyStrip (s : String) : String :=
  String.mk (((s.data.dropWhile isPyStripSpace).reverse.dropWhile isPyStripSpace).reverse)

/-- Python `s.strip("'")` (used on single-quoted name tokens). -/
def pyStripQuotes (s : String) : String :=
  String.mk (((s.data.dropWhile (fun c => c = '\'')).reverse.dropWhile
    (fun c => c = '\'')).reverse)

/-- Python `s.lstrip("*")`. -/
def pyLStripStar (s : String) : String :=
  String.mk (s.data.dropWhile (fun c => c = '*'))

/-- Python `s.lower()` (ASCII letters). -/
def pyLower (s : String) : String :=
  String.mk (s.data.map Char.toLower)

/-- The scanning loop of Python `s.split(sep)` for a fixed non-empty
separator, consuming at least one character per iteration (so
`s.length + 1` units of fuel always suffice). -/
def pySplitGo : Nat → List Char → List Char → List Char → List (List Char)
  | 0, _, _, acc => [acc.reverse]
  | fuel + 1, sep, cs, acc =>
    match cs with
    | [] => [acc.reverse]
    | c :: cs2 =>
      if leadsWith sep (c :: cs2) then
        acc.reverse :: pySplitGo fuel sep ((c :: cs2).drop sep.length) []
      else pySplitGo fuel sep cs2 (c :: acc)

/-- Python `s.split(sep)` for a non-empty separator. -/
def pySplit (sep s : String) : List String :=
  (pySplitGo (s.data.length + 1) sep.data s.data []).map String.mk

/-- Splitter of Python `str.splitlines()` over the usual `\n` / `\r\n` / `\r`
boundaries: no piece is produced after a terminator that ends the string. -/
def splitLinesGo : List Char → List Char → List (List Char)
  | [], acc => [acc.reverse]
  | '\r' :: '\n' :: cs, acc =>
    acc.reverse :: (if cs.isEmpty then [] else splitLinesGo cs [])
  | '\n' :: cs, acc =>
    acc.reverse :: (if cs.isEmpty then [] else splitLinesGo cs [])
  | '\r' :: cs, acc =>
    acc.reverse :: (if cs.isEmpty then [] else splitLinesGo cs [])
  | c :: cs, acc => splitLinesGo cs (c :: acc)
termination_by cs _ => cs.length

/-- Python `s.splitlines()`. -/
def pySplitLines (s : String) : List String :=
  if s.data.isEmpty then [] else (splitLinesGo s.data []).map String.mk

/-- `parser._strip_comment`: strip the block-comment delimiters, the leading
`*` of each line, and blank lines. -/
def stripComment (text : String) : String :=
  let s0 := pyStrip text
  let s1 := if leadsWith ['/', '*'] s0.data then String.mk (s0.data.drop 2) else s0
  let s2 := if leadsWith ['/', '*'] s1.data.reverse then String.mk (s1.data.dropLast.dropLast) else s1
  let lines := (pySplitLines s2).map (fun ln => pyStrip (pyLStripStar (pyStrip ln)))
  pyStrip (String.intercalate "\n" (lines.filter (fun ln => ln ≠ "")))

/-! ## AST (ast_nodes.py) -/

/-- A single element (definition or usage); field for field the Python
`Element` dataclass.  `body` makes the type recursive. -/
inductive Element where
  | mk
    (kind : String)
    (is_def : Bool)
    (name : Option String)
    (type_ref : Option String)
    (specializes : List String)
    (multiplicity : Option String)
    (body : List Element)
    (doc : Option String)
    (modifiers : List String)
    (line : Nat)
    (col : Nat)
    (import_path : Option String)
    (import_star : Bool) : Element

def Element.kind : Element → String
  | .mk k _ _ _ _ _ _ _ _ _ _ _ _ => k

def Element.is_def : Element → Bool
  | .mk _ d _ _ _ _ _ _ _ _ _ _ _ => d

def Element.name : Element → Option String
  | .mk _ _ n _ _ _ _ _ _ _ _ _ _ => n

def Element.type_ref : Element → Option String
  | .mk _ _ _ t _ _ _ _ _ _ _ _ _ => t

def Element.specializes : Element → List String
  | .mk _ _ _ _ s _ _ _ _ _ _ _ _ => s

def Element.multiplicity : Element → Option String
  | .mk _ _ _ _ _ m _ _ _ _ _ _ _ => m

def Element.body : Element → List Element
  | .mk _ _ _ _ _ _ b _ _ _ _ _ _ => b

def Element.doc : Element → Option String
  | .mk _ _ _ _ _ _ _ d _ _ _ _ _ => d

def Element.modifiers : Element → List String
  | .mk _ _ _ _ _ _ _ _ m _ _ _ _ => m

def Element.line : Element → Nat
  | .mk _ _ _ _ _ _ _ _ _ l _ _ _ => l

def Element.col : Element → Nat
  | .mk _ _ _ _ _ _ _ _ _ _ c _ _ => c

def Element.import_path : Element → Option String
  | .mk _ _ _ _ _ _ _ _ _ _ _ p _ => p

def Element.import_star : Element → Bool
  | .mk _ _ _ _ _ _ _ _ _ _ _ _ s => s

/-- Field assignment `elem.type_ref = v`. -/
def Element.setTypeRef : Element → Option String → Element
  | .mk k d n _ sp m b dc md l c ip st, t => .mk k d n t sp m b dc md l c ip st

/-- Field assignment `elem.specializes = v`. -/
def Element.setSpecializes : Element → List String → Element
  | .mk k d n t _ m b dc md l c ip st, sp => .mk k d n t sp m b dc md l c ip st

/-- Field assignment `elem.multiplicity = v`. -/
def Element.setMultiplicity : Element → Option String → Element
  | .mk k d n t sp _ b dc md l c ip st, m => .mk k d n t sp m b dc md l c ip st

/-- Field assignment `elem.body = v`. -/
def Element.setBody : Element → List Element → Element
  | .mk k d n t sp m _ dc md l c ip st, b => .mk k d n t sp m b dc md l c ip st

/-- Field assignment `elem.doc = v`. -/
def Element.setDoc : Element → Option String → Element
  | .mk k d n t sp m b _ md l c ip st, dc => .mk k d n t sp m b dc md l c ip st

/-- Root of the AST for one source file. -/
structure File where
  filename : String
  elements : List Element

/-! ## Parser (parser.py) -/

/-- The keyword sets used by the parser: visibility modifiers. -/
def VISIBILITY : List TokenType := [.PRIVATE, .PROTECTED, .PUBLIC]

/-- The pre-modifier keyword set consumed before an element keyword. -/
def MODIFIER_KEYWORDS : List TokenType :=
  [.ABSTRACT, .REF, .VAR, .DERIVED, .ORDERED, .NONUNIQUE, .COMPOSITE,
   .PORTION, .LIBRARY, .INDIVIDUAL, .VARIATION, .VARIANT, .STANDARD,
   .CONST, .CONSTANT]

/-- Keywords that start a named element definition or usage. -/
def ELEMENT_KEYWORDS : List TokenType :=
  [.PACKAGE, .NAMESPACE,
   .PART, .ACTION, .REQUIREMENT, .ATTRIBUTE, .PORT, .ENUM,
   .INTERFACE, .CONNECTION, .CONNECTOR, .ALLOCATION, .METADATA, .BEHAVIOR,
   .FUNCTION, .PREDICATE, .CALC, .ANALYSIS, .STATE, .RENDERING,
   .VIEW, .VIEWPOINT, .OCCURRENCE, .INTERACTION, .CLASS, .ASSOC,
   .CLASSIFIER, .DATATYPE, .STRUCT, .ITEM, .TYPE, .MULTIPLICITY,
   .FEATURE, .FLOW, .SUCCESSION, .TRANSITION, .FRAME, .CONCERN,
   .STAKEHOLDER, .CONSTRAINT, .ACTOR, .SUBJECT, .OBJECTIVE, .STEP,
   .FILTER, .FORK, .JOIN, .MERGE, .DECIDE, .VERIFICATION]

/-- Keywords handled as generic skipped elements inside bodies. -/
def BODY_ONLY_KEYWORDS : List TokenType :=
  [.PERFORM, .EXHIBIT, .SATISFY, .VERIFY, .EXPOSE, .SEND,
   .ACCEPT, .ASSERT, .INCLUDE, .BIND, .ALIAS, .DEPENDENCY,
   .SPECIALIZATION, .CONJUGATION, .TYPING, .FEATURING, .DISJOINING,
   .REDEFINES, .SUBSETS, .MEMBER, .ENTRY, .DO, .EXIT,
   .WHEN, .ELSE, .IF]

/-- Sequencing keywords, parsed as thin Element nodes. -/
def SEQUENCE_KEYWORDS : List TokenType := [.FIRST, .THEN]

/-- Parameter direction keywords. -/
def DIRECTION_KEYWORDS : List TokenType := [.IN, .OUT, .INOUT]

/-- The synthetic token `Parser._cur` returns past the end of the stream. -/
def eofTok : Token := Token.mk .EOF "" 0 0

/-- `Parser._cur`: the token at the cursor, or a synthetic EOF. -/
def cur (toks : List Token) (pos : Nat) : Token := toks.getD pos eofTok

/-! The `while` loops of the parser helpers all advance the cursor by at
least one position per iteration and stop at (or before) the end of the
token list, so running them with `toks.length + 1` units of fuel never
reaches the out-of-fuel base case; every call site below passes that
bound.  Explicit fuel keeps these functions structurally recursive, hence
computable by kernel reduction. -/

/-- `Parser._parse_name_token`: consume an IDENTIFIER or single-quoted STRING
and return its (dequoted) text. -/
def parseNameToken (toks : List Token) (pos : Nat) : Option String × Nat :=
  if (cur toks pos).type = TokenType.IDENTIFIER then (some (cur toks pos).value, pos + 1)
  else if (cur toks pos).type = TokenType.STRING then
    (some (pyStripQuotes (cur toks pos).value), pos + 1)
  else (none, pos)

/-- The `while self._at(COLON_COLON, DOT)` loop of `_parse_qualified_name`. -/
def qnameLoop : Nat → List Token → Nat → List String → List String × Nat
  | 0, _, pos, parts => (parts, pos)
  | fuel + 1, toks, pos, parts =>
    if (cur toks pos).type = TokenType.COLON_COLON ∨ (cur toks pos).type = TokenType.DOT then
      match parseNameToken toks (pos + 1) with
      | (some s, p2) =>
        if s = "" then
          if (cur toks p2).type = TokenType.STAR then
            qnameLoop fuel toks (p2 + 1) (parts ++ ["*"])
          else qnameLoop fuel toks p2 parts
        else qnameLoop fuel toks p2 (parts ++ [s])
      | (none, p2) =>
        if (cur toks p2).type = TokenType.STAR then
          qnameLoop fuel toks (p2 + 1) (parts ++ ["*"])
        else qnameLoop fuel toks p2 parts
    else (parts, pos)

/-- `Parser._parse_qualified_name`: `A::B::C` (or dotted), joined with `::`. -/
def parseQualifiedName (toks : List Token) (pos : Nat) : String × Nat :=
  let (tok, p1) := parseNameToken toks pos
  let parts : List String := match tok with
    | some v => if v = "" then [] else [v]
    | none => []
  let (parts2, p2) := qnameLoop (toks.length + 1) toks p1 parts
  (String.intercalate "::" parts2, p2)

/-- The pending-block-comment collection loop at the top of
`Parser._parse_body`; remembers the last comment seen. -/
def collectPending : Nat → List Token → Nat → Option Token → Option Token × Nat
  | 0, _, pos, pending => (pending, pos)
  | fuel + 1, toks, pos, pending =>
    if (cur toks pos).type = TokenType.BLOCK_COMMENT then
      collectPending fuel toks (pos + 1) (some (cur toks pos))
    else (pending, pos)

/-- The `while self._cur().type in _PREFIX_MODIFIERS` loop of
`Parser._parse_element`. -/
def collectMods : Nat → List Token → Nat → List String → List String × Nat
  | 0, _, pos, mods => (mods, pos)
  | fuel + 1, toks, pos, mods =>
    if (cur toks pos).type ∈ MODIFIER_KEYWORDS then
      collectMods fuel toks (pos + 1) (mods ++ [(cur toks pos).value])
    else (mods, pos)

/-- The collection loop of `Parser._parse_multiplicity`. -/
def multLoop : Nat → List Token → Nat → List String → List String × Nat
  | 0, _, pos, parts => (parts, pos)
  | fuel + 1, toks, pos, parts =>
    if ¬((cur toks pos).type = TokenType.RBRACK ∨ (cur toks pos).type = TokenType.EOF) then
      multLoop fuel toks (pos + 1) (parts ++ [(cur toks pos).value])
    else (parts, pos)

/-- `Parser._parse_multiplicity`: the raw bracket text, or "" when not at a
bracket. -/
def parseMultiplicity (toks : List Token) (pos : Nat) : String × Nat :=
  if (cur toks pos).type = TokenType.LBRACK then
    let (parts, p) := multLoop (toks.length + 1) toks (pos + 1) []
    let p2 := if (cur toks p).type = TokenType.RBRACK then p + 1 else p
    ("[" ++ String.join parts ++ "]", p2)
  else ("", pos)

/-- The scan loop of `Parser._skip_to_end`. -/
def scanToEnd : Nat → List Token → Nat → Nat
  | 0, _, pos => pos
  | fuel + 1, toks, pos =>
    if ¬((cur toks pos).type = TokenType.SEMI ∨ (cur toks pos).type = TokenType.LBRACE ∨
        (cur toks pos).type = TokenType.RBRACE ∨ (cur toks pos).type = TokenType.EOF) then
      scanToEnd fuel toks (pos + 1)
    else pos

/-- `Parser._skip_block`: consume until the nesting depth returns to zero. -/
def skipBlock : Nat → List Token → Nat → Nat → Nat
  | 0, _, pos, _ => pos
  | fuel + 1, toks, pos, depth =>
    if (cur toks pos).type ≠ TokenType.EOF ∧ 0 < depth then
      if (cur toks pos).type = TokenType.LBRACE then skipBlock fuel toks (pos + 1) (depth + 1)
      else if (cur toks pos).type = TokenType.RBRACE then skipBlock fuel toks (pos + 1) (depth - 1)
      else skipBlock fuel toks (pos + 1) depth
    else pos

/-- `Parser._skip_to_end`: scan to `;`, `{` or `}`; consume a `;`, or enter a
block skip after a `{`. -/
def skipToEnd (toks : List Token) (pos : Nat) : Nat :=
  let p := scanToEnd (toks.length + 1) toks pos
  if (cur toks p).type = TokenType.SEMI then p + 1
  else if (cur toks p).type = TokenType.LBRACE then skipBlock (toks.length + 1) toks (p + 1) 1
  else p

/-- `Parser._skip_expression`: balanced-bracket skip stopping at a depth-0 `;`
or an unbalanced closer. -/
def skipExpression : Nat → List Token → Nat → Nat → Nat
  | 0, _, pos, _ => pos
  | fuel + 1, toks, pos, depth =>
    if (cur toks pos).type ≠ TokenType.EOF then
      if (cur toks pos).type = TokenType.LBRACE ∨ (cur toks pos).type = TokenType.LPAREN ∨
          (cur toks pos).type = TokenType.LBRACK then
        skipExpression fuel toks (pos + 1) (depth + 1)
      else if (cur toks pos).type = TokenType.RBRACE ∨ (cur toks pos).type = TokenType.RPAREN ∨
          (cur toks pos).type = TokenType.RBRACK then
        if depth = 0 then pos
        else skipExpression fuel toks (pos + 1) (depth - 1)
      else if (cur toks pos).type = TokenType.SEMI ∧ depth = 0 then pos + 1
      else skipExpression fuel toks (pos + 1) depth
    else pos

/-- The `while self._eat(COLON_COLON)` loop of `Parser._parse_import`. -/
def importLoop : Nat → List Token → Nat → List String → List String × Nat
  | 0, _, pos, parts => (parts, pos)
  | fuel + 1, toks, pos, parts =>
    if (cur toks pos).type = TokenType.COLON_COLON then
      match parseNameToken toks (pos + 1) with
      | (some s, p2) =>
        if s = "" then importLoop fuel toks p2 parts
        else importLoop fuel toks p2 (parts ++ [s])
      | (none, p2) => importLoop fuel toks p2 parts
    else (parts, pos)

/-- The `while self._eat(COMMA)` loop of the specialization clause in
`Parser._parse_element_tail`. -/
def specListLoop : Nat → List Token → Nat → List String → List String × Nat
  | 0, _, pos, specs => (specs, pos)
  | fuel + 1, toks, pos, specs =>
    if (cur toks pos).type = TokenType.COMMA then
      specListLoop fuel toks (parseQualifiedName toks (pos + 1)).2
        (specs ++ [(parseQualifiedName toks (pos + 1)).1])
    else (specs, pos)

/-- The `while self._eat(COMMA)` loop of the `about` clause in
`Parser._parse_comment_kw`. -/
def aboutLoop : Nat → List Token → Nat → Nat
  | 0, _, pos => pos
  | fuel + 1, toks, pos =>
    if (cur toks pos).type = TokenType.COMMA then
      aboutLoop fuel toks (parseQualifiedName toks (pos + 1)).2
    else pos

/-- `Parser._parse_identification`: optional `< alias >`, then a name. -/
def parseIdentification (toks : List Token) (pos : Nat) : Option String × Nat :=
  if (cur toks pos).type = TokenType.LT then
    let p1 := (parseNameToken toks (pos + 1)).2
    let p2 := if (cur toks p1).type = TokenType.GT then p1 + 1 else p1
    parseNameToken toks p2
  else parseNameToken toks pos

/-- `Parser._eat_identification`: like `_parse_identification`, result unused. -/
def eatIdentification (toks : List Token) (pos : Nat) : Nat :=
  if (cur toks pos).type = TokenType.LT then
    let p1 := (parseNameToken toks (pos + 1)).2
    let p2 := if (cur toks p1).type = TokenType.GT then p1 + 1 else p1
    (parseNameToken toks p2).2
  else (parseNameToken toks pos).2

/-- `Parser._parse_import`: a `::`-joined path with optional `all` and
wildcard star, closed by `;` or a discarded `{ ... }` body. -/
def parseImport (toks : List Token) (pos : Nat) (line col : Nat)
    (modifiers : List String) : Element × Nat :=
  let p1 := pos + 1
  let p2 := if (cur toks p1).type = TokenType.ALL then p1 + 1 else p1
  let (n, p3) := parseNameToken toks p2
  let parts0 : List String := match n with
    | some v => if v = "" then [] else [v]
    | none => []
  let (parts1, p4) := importLoop (toks.length + 1) toks p3 parts0
  let (isStar0, parts2) :=
    if parts1 ≠ [] ∧ parts1.getLast? = some "*" then (true, parts1.dropLast)
    else (false, parts1)
  let (isStar, p5) :=
    if (cur toks p4).type = TokenType.STAR then (true, p4 + 1) else (isStar0, p4)
  let path := String.intercalate "::" parts2
  let p6 :=
    if (cur toks p5).type = TokenType.LBRACE then skipBlock (toks.length + 1) toks (p5 + 1) 1
    else if (cur toks p5).type = TokenType.SEMI then p5 + 1
    else p5
  (Element.mk "import" false none none [] none [] none modifiers line col
    (some path) isStar, p6)

/-- `Parser._parse_doc`: `doc` with optional identification and locale; the
doc text comes from the following block comment, or the pending one. -/
def parseDoc (toks : List Token) (pos : Nat) (line col : Nat)
    (pending : Option Token) : Element × Nat :=
  let p1 := eatIdentification toks (pos + 1)
  let p2 :=
    if (cur toks p1).type = TokenType.LOCALE then
      if (cur toks (p1 + 1)).type = TokenType.DOUBLE_STRING then p1 + 2 else p1 + 1
    else p1
  let (docText, p3) :=
    if (cur toks p2).type = TokenType.BLOCK_COMMENT then
      (some (stripComment (cur toks p2).value), p2 + 1)
    else
      match pending with
      | some t => (some (stripComment t.value), p2)
      | none => (none, p2)
  (Element.mk "doc" false none none [] none [] docText [] line col none false, p3)

/-- `Parser._parse_comment_kw`: `comment` with optional identification,
`about` list and locale, then a block-comment body. -/
def parseCommentKw (toks : List Token) (pos : Nat) (line col : Nat) :
    Element × Nat :=
  let p1 := eatIdentification toks (pos + 1)
  let p2 :=
    if (cur toks p1).type = TokenType.ABOUT then
      aboutLoop (toks.length + 1) toks (parseQualifiedName toks (p1 + 1)).2
    else p1
  let p3 :=
    if (cur toks p2).type = TokenType.LOCALE then
      if (cur toks (p2 + 1)).type = TokenType.DOUBLE_STRING then p2 + 2 else p2 + 1
    else p2
  let (docText, p4) :=
    if (cur toks p3).type = TokenType.BLOCK_COMMENT then
      (some (stripComment (cur toks p3).value), p3 + 1)
    else (none, p3)
  (Element.mk "comment" false none none [] none [] docText [] line col none false, p4)

/-- `Parser._parse_require_or_assume`: `require`/`assume` followed by
`constraint` yields a structural element whose body is skipped; otherwise a
recovery skip. -/
def parseRequireOrAssume (toks : List Token) (pos : Nat) (line col : Nat)
    (modifiers : List String) : Option Element × Nat :=
  let p1 := pos + 1
  if (cur toks p1).type = TokenType.CONSTRAINT then
    let p2 := p1 + 1
    let p3 :=
      if (cur toks p2).type = TokenType.LBRACE then skipBlock (toks.length + 1) toks (p2 + 1) 1
      else if (cur toks p2).type = TokenType.SEMI then p2 + 1
      else p2
    (some (Element.mk "require_constraint" false none none [] none [] none
      modifiers line col none false), p3)
  else (none, skipToEnd toks p1)
/-! The mutually recursive core of the parser.  The Python methods
`_parse_body`, `_parse_element`, `_parse_use_case` and `_parse_element_tail`
recurse into each other; `_parse_body` additionally loops over elements.  The
loop of `_parse_body` does not necessarily advance the cursor (see the
theorems on claim C2), so this recursion is modelled with explicit fuel:
`none` means the fuel ran out, i.e. within the given budget the Python code
would not have returned. -/

mutual

/-- `Parser._parse_body`: the element-list loop of a scope (or of the file
when `topLevel`). -/
def parseBody : Nat → List Token → Nat → Bool → Option (List Element × Nat)
  | 0, _, _, _ => none
  | fuel + 1, toks, pos, topLevel =>
    if (cur toks pos).type = TokenType.EOF then some ([], pos)
    else if !topLevel && (cur toks pos).type = TokenType.RBRACE then some ([], pos)
    else
      let (pending, pos1) := collectPending (toks.length + 1) toks pos none
      if (cur toks pos1).type = TokenType.EOF then some ([], pos1)
      else if !topLevel && (cur toks pos1).type = TokenType.RBRACE then some ([], pos1)
      else
        match parseElement fuel toks pos1 pending with
        | none => none
        | some (optElem, pos2) =>
          match parseBody fuel toks pos2 topLevel with
          | none => none
          | some (rest, pos3) =>
            some ((match optElem with | some e => [e] | none => []) ++ rest, pos3)
termination_by structural fuel _ _ _ => fuel

/-- `Parser._parse_element`: parse one element at the cursor; `none` in the
result means the position moved without producing an element. -/
def parseElement : Nat → List Token → Nat → Option Token → Option (Option Element × Nat)
  | 0, _, _, _ => none
  | fuel + 1, toks, pos, pending =>
    if (cur toks pos).type = TokenType.SEMI then some (none, pos + 1)
    else
      let line := (cur toks pos).line
      let col := (cur toks pos).col
      let (mods0, pos0) :=
        if (cur toks pos).type ∈ VISIBILITY then ([(cur toks pos).value], pos + 1)
        else ([], pos)
      let (mods, pos1) := collectMods (toks.length + 1) toks pos0 mods0
      if (cur toks pos1).type = TokenType.COLON_GT_GT ∨
          (cur toks pos1).type = TokenType.COLON_COLON_GT ∨
          (cur toks pos1).type = TokenType.COLON_GT then
        some (none, skipToEnd toks pos1)
      else if (cur toks pos1).type = TokenType.IMPORT then
        let (e, p) := parseImport toks pos1 line col mods
        some (some e, p)
      else if (cur toks pos1).type = TokenType.DOC then
        let (e, p) := parseDoc toks pos1 line col pending
        some (some e, p)
      else if (cur toks pos1).type = TokenType.COMMENT then
        let (e, p) := parseCommentKw toks pos1 line col
        some (some e, p)
      else if (cur toks pos1).type = TokenType.REQUIRE ∨
          (cur toks pos1).type = TokenType.ASSUME then
        let (oe, p) := parseRequireOrAssume toks pos1 line col mods
        some (oe, p)
      else if (cur toks pos1).type ∈ SEQUENCE_KEYWORDS then
        let kw := (cur toks pos1).value
        let (seqName, p) := parseNameToken toks (pos1 + 1)
        let p2 := if (cur toks p).type = TokenType.SEMI then p + 1 else p
        some (some (Element.mk kw false seqName none [] none [] none [] line col
          none false), p2)
      else if (cur toks pos1).type = TokenType.RETURN then
        let (retName, p) := parseNameToken toks (pos1 + 1)
        let (retType, p2) :=
          if (cur toks p).type = TokenType.COLON then
            let (qn, pq) := parseQualifiedName toks (p + 1)
            (some qn, pq)
          else (none, p)
        let p3 := if (cur toks p2).type = TokenType.SEMI then p2 + 1 else p2
        some (some (Element.mk "return_param" false retName retType [] none []
          none ["return"] line col none false), p3)
      else
        let (direction, mods2, pos2) :=
          if (cur toks pos1).type ∈ DIRECTION_KEYWORDS then
            (some (cur toks pos1).value, mods ++ [(cur toks pos1).value], pos1 + 1)
          else ((none : Option String), mods, pos1)
        if (cur toks pos2).type = TokenType.USE ∧
            (cur toks (pos2 + 1)).type = TokenType.CASE then
          match parseUseCase fuel toks pos2 mods2 pending line col with
          | some (e, p) => some (some e, p)
          | none => none
        else if (cur toks pos2).type ∈ BODY_ONLY_KEYWORDS then
          some (none, skipToEnd toks pos2)
        else if (cur toks pos2).type = TokenType.AT_SIGN ∨
            (cur toks pos2).type = TokenType.AT_AT then
          some (none, skipToEnd toks pos2)
        else if (cur toks pos2).type ∉ ELEMENT_KEYWORDS then
          if direction ≠ none ∧ (cur toks pos2).type = TokenType.IDENTIFIER then
            let pname := (cur toks pos2).value
            let (ptype, p3) :=
              if (cur toks (pos2 + 1)).type = TokenType.COLON then
                let (qn, pq) := parseQualifiedName toks (pos2 + 2)
                (some qn, pq)
              else (none, pos2 + 1)
            let (pmult, p4) :=
              if (cur toks p3).type = TokenType.LBRACK then
                let (m, pm) := parseMultiplicity toks p3
                (some m, pm)
              else ((none : Option String), p3)
            let p5 := if (cur toks p4).type = TokenType.SEMI then p4 + 1 else p4
            some (some (Element.mk "parameter" false (some pname) ptype [] pmult
              [] none mods2 line col none false), p5)
          else if (cur toks pos2).type = TokenType.EOF ∨
              (cur toks pos2).type = TokenType.RBRACE then
            some (none, pos2)
          else some (none, pos2 + 1)
        else
          let primary := cur toks pos2
          let (isDef, pos3) :=
            if (cur toks (pos2 + 1)).type = TokenType.DEF then (true, pos2 + 2)
            else (false, pos2 + 1)
          let kind := primary.value ++ (if isDef then "_def" else "")
          let (name, pos4) := parseIdentification toks pos3
          let elem0 := Element.mk kind isDef name none [] none [] none mods2 line
            col none false
          let elem1 :=
            match pending with
            | some c => elem0.setDoc (some (stripComment c.value))
            | none => elem0
          match parseElementTail fuel toks pos4 elem1 with
          | some (e, p) => some (some e, p)
          | none => none
termination_by structural fuel _ _ _ => fuel

/-- `Parser._parse_use_case`: the `use case [def]` compound construct. -/
def parseUseCase : Nat → List Token → Nat → List String → Option Token → Nat → Nat →
    Option (Element × Nat)
  | 0, _, _, _, _, _, _ => none
  | fuel + 1, toks, pos, modifiers, pending, line, col =>
    let (isDef, p1) :=
      if (cur toks (pos + 2)).type = TokenType.DEF then (true, pos + 3)
      else (false, pos + 2)
    let (name, p2) := parseIdentification toks p1
    let elem0 := Element.mk (if isDef then "use_case_def" else "use_case") isDef
      name none [] none [] none modifiers line col none false
    let elem1 :=
      match pending with
      | some c => elem0.setDoc (some (stripComment c.value))
      | none => elem0
    parseElementTail fuel toks p2 elem1
termination_by structural fuel _ _ _ _ _ _ => fuel

/-- `Parser._parse_element_tail`: type annotation, specialization,
redefinition, multiplicity, then `= expr`, a `{ ... }` body, or `;`. -/
def parseElementTail : Nat → List Token → Nat → Element → Option (Element × Nat)
  | 0, _, _, _ => none
  | fuel + 1, toks, pos, elem =>
    let (elem1, pos1) :=
      if (cur toks pos).type = TokenType.COLON then
        let p := if (cur toks (pos + 1)).type = TokenType.TYPED then pos + 2 else pos + 1
        let (qn, p2) := parseQualifiedName toks p
        let e := elem.setTypeRef (some qn)
        if (cur toks p2).type = TokenType.LBRACK then
          let (m, p3) := parseMultiplicity toks p2
          (e.setMultiplicity (some m), p3)
        else (e, p2)
      else (elem, pos)
    let (elem2, pos2) :=
      if (cur toks pos1).type = TokenType.COLON_GT ∨
          (cur toks pos1).type = TokenType.SPECIALIZES then
        let (qn, p) := parseQualifiedName toks (pos1 + 1)
        let (specs, p2) := specListLoop (toks.length + 1) toks p [qn]
        (elem1.setSpecializes (elem1.specializes ++ specs), p2)
      else (elem1, pos1)
    let pos3 :=
      if (cur toks pos2).type = TokenType.COLON_GT_GT ∨
          (cur toks pos2).type = TokenType.REDEFINES then
        (parseQualifiedName toks (pos2 + 1)).2
      else pos2
    let (elem3, pos4) :=
      if elem2.multiplicity = none ∧ (cur toks pos3).type = TokenType.LBRACK then
        let (m, p) := parseMultiplicity toks pos3
        (elem2.setMultiplicity (some m), p)
      else (elem2, pos3)
    if (cur toks pos4).type = TokenType.EQ then
      some (elem3, skipExpression (toks.length + 1) toks (pos4 + 1) 0)
    else if (cur toks pos4).type = TokenType.LBRACE then
      match parseBody fuel toks (pos4 + 1) false with
      | some (children, p) =>
        let elem4 := elem3.setBody children
        let elem5 :=
          if elem4.doc = none then
            match children.find? (fun c => c.kind == "doc") with
            | some c => elem4.setDoc c.doc
            | none => elem4
          else elem4
        let p2 := if (cur toks p).type = TokenType.RBRACE then p + 1 else p
        some (elem5, p2)
      | none => none
    else if (cur toks pos4).type = TokenType.SEMI then some (elem3, pos4 + 1)
    else some (elem3, pos4)
termination_by structural fuel _ _ _ => fuel

end

namespace Parser

/-- `Parser.parse`: drop line comments, then parse the top-level body.  The
fuel bounds the number of loop iterations and recursive calls of the four
mutually recursive parsing functions; `none` means the budget was exhausted. -/
def parse (fuel : Nat) (tokens : List Token) (filename : String) : Option File :=
  match parseBody fuel (tokens.filter (fun t => t.type != TokenType.LINE_COMMENT)) 0 true with
  | some (elements, _) => some (File.mk filename elements)
  | none => none

end Parser

/-! ## Diagnostics (diagnostic.py) -/

inductive Severity where
  | error | warning | info
deriving DecidableEq, Repr

structure Diagnostic where
  rule_id : String
  severity : Severity
  message : String
  filename : String
  line : Nat
  col : Nat
deriving DecidableEq, Repr

/-- Lexicographic comparison of char lists by code point, the comparison
Python uses on the `filename` strings in `Diagnostic.__lt__`. -/
def lexLtChars : List Char → List Char → Bool
  | [], [] => false
  | [], _ :: _ => true
  | _ :: _, [] => false
  | a :: as, b :: bs =>
    if a.toNat < b.toNat then true
    else if b.toNat < a.toNat then false
    else lexLtChars as bs

/-- `Diagnostic.__lt__`: tuple comparison of `(filename, line, col)`. -/
def diagLt (a b : Diagnostic) : Bool :=
  if lexLtChars a.filename.data b.filename.data then true
  else if lexLtChars b.filename.data a.filename.data then false
  else if a.line < b.line then true
  else if b.line < a.line then false
  else decide (a.col < b.col)

/-- One insertion step of a stable insertion sort with respect to `diagLt`:
`d` goes in front of the first element not strictly below it. -/
def insertDiag (d : Diagnostic) : List Diagnostic → List Diagnostic
  | [] => [d]
  | e :: es => if diagLt e d then e :: insertDiag d es else d :: e :: es

/-- The `sorted(diags)` call of `check_file`: Python's sort is stable and
consults only `__lt__`, so any stable sort by `diagLt` computes it. -/
def sortDiags : List Diagnostic → List Diagnostic
  | [] => []
  | d :: ds => insertDiag d (sortDiags ds)

/-! ## Rule base (rules/base.py) -/

theorem Element.sizeOf_body_lt (e : Element) : sizeOf e.body < sizeOf e := by
  cases e
  simp [Element.body]
  omega

/-- `BaseRule._walk`: generic traversal calling the visitor on every element,
parents before their bodies, bodies before later siblings. -/
def walk (visitor : Element → String → Option Element → List Diagnostic) :
    List Element → String → Option Element → List Diagnostic
  | [], _, _ => []
  | e :: es, fn, parent =>
    visitor e fn parent ++ walk visitor e.body fn (some e) ++ walk visitor es fn parent
termination_by elements _ _ => sizeOf elements
decreasing_by
  all_goals try have h1 := Element.sizeOf_body_lt e
  all_goals try simp
  all_goals try omega

/-- Python string truthiness for optional name fields. -/
def pyTruthy : Option String → Prop
  | none => False
  | some s => s ≠ ""

instance (o : Option String) : Decidable (pyTruthy o) := by
  cases o <;> simp [pyTruthy] <;> infer_instance

/-! ## Naming rule (rules/naming.py) -/

/-- Kinds whose definitions should be PascalCase. -/
def NAMING_DEF_KINDS : List String :=
  ["part_def", "action_def", "requirement_def", "attribute_def",
   "port_def", "enum_def", "interface_def", "connection_def",
   "connector_def", "allocation_def", "metadata_def", "behavior_def",
   "function_def", "predicate_def", "calc_def", "analysis_def",
   "state_def", "rendering_def", "view_def", "viewpoint_def",
   "occurrence_def", "interaction_def", "class_def", "assoc_def",
   "classifier_def", "datatype_def", "struct_def", "item_def",
   "type_def", "feature_def", "flow_def", "succession_def",
   "transition_def", "frame_def", "concern_def", "stakeholder_def",
   "constraint_def", "use_case_def", "verification_def"]

/-- Kinds whose usages should be camelCase. -/
def NAMING_USAGE_KINDS : List String :=
  ["part", "action", "requirement", "attribute", "port", "interface",
   "connection", "connector", "allocation", "metadata", "behavior",
   "function", "predicate", "calc", "analysis", "state", "rendering",
   "view", "viewpoint", "occurrence", "interaction", "class", "assoc",
   "classifier", "datatype", "struct", "item", "type", "feature",
   "flow", "succession", "transition", "frame", "concern", "stakeholder",
   "constraint", "use_case"]

/-- Package / namespace kinds. -/
def PACKAGE_KINDS : List String := ["package", "namespace"]

/-- The char list a full-anchored Python regex match sees: `$` also matches
just before one trailing newline. -/
def regexSubject (s : String) : List Char :=
  match s.data.getLast? with
  | some '\n' => s.data.dropLast
  | _ => s.data

/-- `_is_pascal_case`: `^[A-Z][a-zA-Z0-9]*$`. -/
def isPascalCase (s : String) : Bool :=
  match regexSubject s with
  | [] => false
  | c :: cs => c.isUpper && cs.all Char.isAlphanum

/-- `_is_camel_or_snake`: `^[a-z][a-zA-Z0-9_]*$`. -/
def isCamelOrSnake (s : String) : Bool :=
  match regexSubject s with
  | [] => false
  | c :: cs => c.isLower && cs.all (fun ch => ch.isAlphanum || ch = '_')

/-- `_is_quoted`: name begins with a single quote. -/
def isQuoted (s : String) : Bool := leadsWith ['\''] s.data

/-- The separator class of `re.split(r"[_\s]+", name)` (ASCII scope). -/
def isSepChar (c : Char) : Bool :=
  c = '_' || c = ' ' || c = '\t' || c = '\n' || c = '\r' || c = '\x0b' || c = '\x0c'

/-- `re.split(r"[_\s]+", ...)`: split on maximal separator runs, keeping empty
pieces at the borders.  Each iteration consumes at least one character, so
`s.length + 1` units of fuel always suffice. -/
def splitSepRunsGo : Nat → List Char → List Char → List String
  | 0, _, acc => [String.mk acc.reverse]
  | fuel + 1, cs, acc =>
    match cs with
    | [] => [String.mk acc.reverse]
    | c :: cs2 =>
      if isSepChar c then
        String.mk acc.reverse :: splitSepRunsGo fuel (cs2.dropWhile isSepChar) []
      else splitSepRunsGo fuel cs2 (c :: acc)

def splitSepRuns (s : String) : List String :=
  splitSepRunsGo (s.data.length + 1) s.data []

/-- Python `str.capitalize()`: first char uppercased, the rest lowercased. -/
def pyCapitalize (s : String) : String :=
  match s.data with
  | [] => ""
  | c :: cs => String.mk (c.toUpper :: cs.map Char.toLower)

/-- `_to_pascal`: best-effort PascalCase conversion for suggestions. -/
def toPascal (name : String) : String :=
  String.join (((splitSepRuns name).filter (fun w => w ≠ "")).map pyCapitalize)

/-- `_to_camel`: best-effort camelCase conversion for suggestions. -/
def toCamel (name : String) : String :=
  match splitSepRuns name with
  | [] => name
  | w :: ws => pyLower w ++ String.join ((ws.filter (fun x => x ≠ "")).map pyCapitalize)

/-- `NamingRule._visit`. -/
def namingVisit (elem : Element) (filename : String) (parent : Option Element) :
    List Diagnostic :=
  match elem.name with
  | none => []
  | some name =>
    if name = "" ∨ isQuoted name then []
    else if elem.kind ∈ PACKAGE_KINDS then
      if ¬ isPascalCase name then
        [Diagnostic.mk "W003" .warning
          ("Package/namespace '" ++ name ++ "' should use PascalCase (e.g. '" ++
            toPascal name ++ "').") filename elem.line elem.col]
      else []
    else if elem.kind ∈ NAMING_DEF_KINDS then
      if ¬ isPascalCase name then
        [Diagnostic.mk "W001" .warning
          ("Definition '" ++ name ++ "' should use PascalCase (e.g. '" ++
            toPascal name ++ "').") filename elem.line elem.col]
      else []
    else if elem.kind ∈ NAMING_USAGE_KINDS then
      if ¬ isCamelOrSnake name then
        [Diagnostic.mk "W002" .warning
          ("Usage '" ++ name ++ "' should use camelCase or snake_case (e.g. '" ++
            toCamel name ++ "').") filename elem.line elem.col]
      else []
    else []

def NamingRule.check (file : File) : List Diagnostic :=
  walk namingVisit file.elements file.filename none

/-! ## Documentation rule (rules/documentation.py) -/

/-- Definition kinds that should carry a doc block. -/
def DOC_DEF_KINDS : List String :=
  ["part_def", "action_def", "requirement_def", "attribute_def",
   "port_def", "enum_def", "interface_def", "connection_def",
   "connector_def", "allocation_def", "metadata_def", "behavior_def",
   "function_def", "predicate_def", "calc_def", "analysis_def",
   "state_def", "rendering_def", "view_def", "viewpoint_def",
   "occurrence_def", "interaction_def", "class_def", "assoc_def",
   "classifier_def", "datatype_def", "struct_def", "item_def",
   "use_case_def", "constraint_def"]

/-- `DocumentationRule._visit`.  Note: the emission branches fire only for
definition kinds, so packages and namespaces pass the early return but are
never reported (see the theorems on claim C7). -/
def documentationVisit (elem : Element) (filename : String)
    (parent : Option Element) : List Diagnostic :=
  let is_def : Bool := elem.kind ∈ DOC_DEF_KINDS
  let is_req : Bool := elem.kind = "requirement_def"
  if !is_def && elem.kind ∉ PACKAGE_KINDS then []
  else if ¬ pyTruthy elem.name then []
  else
    let name := elem.name.getD ""
    let has_doc : Bool :=
      match elem.doc with
      | some d => (pyStrip d).length ≥ 5
      | none => false
    if is_req && !has_doc then
      [Diagnostic.mk "W011" .warning
        ("Requirement definition '" ++ name ++ "' is missing a doc block. " ++
          "Requirements should document their intent.") filename elem.line elem.col]
    else if is_def && !has_doc then
      [Diagnostic.mk "W010" .info
        ("Definition '" ++ name ++ "' has no doc block.") filename elem.line elem.col]
    else []

def DocumentationRule.check (file : File) : List Diagnostic :=
  walk documentationVisit file.elements file.filename none

/-! ## Structure rule (rules/structure.py) -/

/-- Definitions that should not have an empty body. -/
def SUBSTANTIVE_DEFS : List String :=
  ["part_def", "action_def", "requirement_def", "interface_def",
   "connection_def", "port_def", "behavior_def", "function_def",
   "predicate_def", "calc_def", "analysis_def", "state_def",
   "use_case_def"]

/-- Usages that should declare a type. -/
def TYPED_USAGES : List String := ["part", "port", "attribute", "item"]

/-- `StructureRule._visit`. -/
def structureVisit (elem : Element) (filename : String)
    (parent : Option Element) : List Diagnostic :=
  let name := elem.name.getD ""
  let d1 :=
    if elem.kind ∈ SUBSTANTIVE_DEFS ∧ pyTruthy elem.name then
      if (elem.body.filter (fun c => ¬(c.kind = "doc" ∨ c.kind = "comment"))).isEmpty then
        [Diagnostic.mk "W020" .info
          ("Definition '" ++ name ++ "' has an empty body.") filename elem.line elem.col]
      else []
    else []
  let d2 :=
    if elem.kind = "requirement_def" ∧ pyTruthy elem.name then
      let has_sub_reqs :=
        elem.body.any (fun c => c.kind = "requirement" ∨ c.kind = "requirement_def")
      (if ¬ elem.body.any (fun c => c.kind = "subject") ∧ ¬ has_sub_reqs then
        [Diagnostic.mk "W021" .warning
          ("Requirement definition '" ++ name ++ "' has no 'subject' declaration.")
          filename elem.line elem.col]
      else []) ++
      (if ¬ elem.body.any (fun c => c.kind = "require_constraint") ∧ ¬ has_sub_reqs then
        [Diagnostic.mk "W022" .info
          ("Requirement definition '" ++ name ++ "' has no 'require constraint' body.")
          filename elem.line elem.col]
      else [])
    else []
  let d3 :=
    if elem.kind ∈ TYPED_USAGES ∧ pyTruthy elem.name ∧ elem.type_ref = none ∧
        elem.specializes = [] then
      [Diagnostic.mk "W023" .info
        ("Usage '" ++ name ++ "' (" ++ elem.kind ++ ") has no type annotation.")
        filename elem.line elem.col]
    else []
  let d4 :=
    if elem.kind = "action_def" ∧ pyTruthy elem.name ∧ elem.body.isEmpty = false then
      if elem.body.any (fun c => c.kind = "action") ∧
          ¬ elem.body.any (fun c => c.kind = "first" ∨ c.kind = "then") then
        [Diagnostic.mk "I001" .info
          ("Action definition '" ++ name ++ "' defines sub-actions " ++
            "but has no 'first'/'then' sequencing.") filename elem.line elem.col]
      else []
    else []
  d1 ++ d2 ++ d3 ++ d4

def StructureRule.check (file : File) : List Diagnostic :=
  walk structureVisit file.elements file.filename none

/-! ## Scope rule (rules/scope.py) -/

/-- Kinds that define names in a scope. -/
def NAMED_KINDS : List String :=
  ["part_def", "action_def", "requirement_def", "attribute_def",
   "port_def", "enum_def", "interface_def", "connection_def",
   "connector_def", "allocation_def", "metadata_def", "behavior_def",
   "function_def", "predicate_def", "calc_def", "analysis_def",
   "state_def", "view_def", "viewpoint_def", "use_case_def",
   "occurrence_def", "class_def", "assoc_def", "classifier_def",
   "datatype_def", "struct_def", "item_def", "type_def",
   "part", "action", "requirement", "attribute", "port", "item",
   "flow", "constraint", "subject"]

/-- The duplicate-name message, referencing the first declaration. -/
def dupMsg (n : String) (firstLine : Nat) : String :=
  "Duplicate name '" ++ n ++ "' in this scope (first declared at line " ++
    toString firstLine ++ ")."

/-- `ScopeRule._check_duplicates`: within one scope, scope-contributing kinds
compared case-insensitively; `seen` is the dict keyed by the lowered name. -/
def checkDupGo : List Element → String → List (String × Element) → List Diagnostic
  | [], _, _ => []
  | e :: es, fn, seen =>
    let step : List Diagnostic × List (String × Element) :=
      if e.kind ∈ NAMED_KINDS ∧ pyTruthy e.name then
        match seen.find? (fun p => p.1 == pyLower (e.name.getD "")) with
        | some p =>
          ([Diagnostic.mk "W030" .warning (dupMsg (e.name.getD "") p.2.line)
            fn e.line e.col], seen)
        | none => ([], seen ++ [(pyLower (e.name.getD ""), e)])
      else ([], seen)
    step.1 ++ (if e.body.isEmpty then [] else checkDupGo e.body fn []) ++
      checkDupGo es fn step.2
termination_by elements _ _ => sizeOf elements
decreasing_by
  all_goals try have h1 := Element.sizeOf_body_lt e
  all_goals try simp
  all_goals try omega

def checkDuplicates (elements : List Element) (filename : String) : List Diagnostic :=
  checkDupGo elements filename []

/-- `ScopeRule._collect_imports`. -/
def collectImports : List Element → List Element
  | [] => []
  | e :: es =>
    (if e.kind = "import" then [e] else []) ++ collectImports e.body ++ collectImports es
termination_by elements => sizeOf elements
decreasing_by
  all_goals try have h1 := Element.sizeOf_body_lt e
  all_goals try simp
  all_goals try omega

/-- `ScopeRule._collect_references`: every `::`-segment of every `type_ref`
and `specializes` value in the tree (the Python set, as a list with
membership). -/
def collectReferences : List Element → List String
  | [] => []
  | e :: es =>
    (match e.type_ref with
      | some tr => if tr ≠ "" then pySplit "::" tr else []
      | none => []) ++
    (e.specializes.map (fun sp => pySplit "::" sp)).flatten ++
    collectReferences e.body ++ collectReferences es
termination_by elements => sizeOf elements
decreasing_by
  all_goals try have h1 := Element.sizeOf_body_lt e
  all_goals try simp
  all_goals try omega

/-- The unused-import message with the wildcard label. -/
def unusedImportMsg (imp : Element) : String :=
  "Import '" ++ (imp.import_path.getD "") ++ (if imp.import_star then "::*" else "") ++
    "' appears to be unused."

def mkUnusedDiag (fn : String) (imp : Element) : Diagnostic :=
  Diagnostic.mk "W031" .info (unusedImportMsg imp) fn imp.line imp.col

/-- `ScopeRule._check_unused_imports`. -/
def checkUnusedImports (file : File) : List Diagnostic :=
  let imports := collectImports file.elements
  if imports.isEmpty then []
  else
    let used_names := collectReferences file.elements
    (imports.map (fun imp =>
      match imp.import_path with
      | none => []
      | some path =>
        if path = "" then []
        else
          let parts := pySplit "::" path
          let root := parts.headD ""
          let leaf := parts.getLastD ""
          let referenced :=
            if imp.import_star then
              used_names.any (fun name => leadsWith leaf.data name.data || leadsWith root.data name.data)
            else
              decide (leaf ∈ used_names ∨ path ∈ used_names)
          if referenced then [] else [mkUnusedDiag file.filename imp])).flatten

def ScopeRule.check (file : File) : List Diagnostic :=
  checkDuplicates file.elements file.filename ++ checkUnusedImports file

/-! ## Checker (checker.py) -/

/-- The per-rule gathering loop of `check_file`: run each registered rule in
the `ALL_RULES` order, filter by the allowlist, concatenate. -/
def gatherDiags (file : File) (rule_ids : Option (List String)) : List Diagnostic :=
  let keep := fun (ds : List Diagnostic) =>
    match rule_ids with
    | some ids => ds.filter (fun d => d.rule_id ∈ ids)
    | none => ds
  keep (NamingRule.check file) ++ keep (DocumentationRule.check file) ++
    keep (StructureRule.check file) ++ keep (ScopeRule.check file)

/-- `check_file`: gather, then sort by `(filename, line, col)`. -/
def checkFile (file : File) (rule_ids : Option (List String)) : List Diagnostic :=
  sortDiags (gatherDiags file rule_ids)

/-! ## State-threaded rendering of the rule traversals (claim C9)

The Python rules receive the mutable tree; `check_file` hands the same `File`
object to every rule.  To state that running the checker leaves the tree
unchanged, the traversals are rendered once more in state-passing style: each
function returns the element list it hands back to the caller, rebuilt from
the data the Python code would have left in place.  The theorems below prove
the returned tree equals the input tree field for field.
-/

theorem Element.setBody_body (e : Element) : e.setBody e.body = e := by
  cases e
  rfl

/-- `BaseRule._walk`, threading the element list through the traversal. -/
def walkSt (visitor : Element → String → Option Element → List Diagnostic) :
    List Element → String → Option Element → List Element × List Diagnostic
  | [], _, _ => ([], [])
  | e :: es, fn, parent =>
    let ds := visitor e fn parent
    let (body', ds1) := walkSt visitor e.body fn (some e)
    let (es', ds2) := walkSt visitor es fn parent
    (e.setBody body' :: es', ds ++ ds1 ++ ds2)
termination_by elements _ _ => sizeOf elements
decreasing_by
  all_goals try have h1 := Element.sizeOf_body_lt e
  all_goals try simp
  all_goals try omega

theorem walkSt_eq (visitor : Element → String → Option Element → List Diagnostic)
    (elements : List Element) (fn : String) (parent : Option Element) :
    walkSt visitor elements fn parent = (elements, walk visitor elements fn parent) := by
  induction elements, fn, parent using walkSt.induct visitor with
  | case1 fn parent => rw [walkSt, walk]
  | case2 e es fn parent p1 p2 hp q1 q2 hq ihA ihB =>
    rw [walkSt, walk]
    simp only [ihA, ihB, Element.setBody_body]

/-- `ScopeRule._check_duplicates`, threading the element list. -/
def checkDupGoSt : List Element → String → List (String × Element) →
    List Element × List Diagnostic
  | [], _, _ => ([], [])
  | e :: es, fn, seen =>
    let step : List Diagnostic × List (String × Element) :=
      if e.kind ∈ NAMED_KINDS ∧ pyTruthy e.name then
        match seen.find? (fun p => p.1 == pyLower (e.name.getD "")) with
        | some p =>
          ([Diagnostic.mk "W030" .warning (dupMsg (e.name.getD "") p.2.line)
            fn e.line e.col], seen)
        | none => ([], seen ++ [(pyLower (e.name.getD ""), e)])
      else ([], seen)
    let (body', ds1) :=
      if e.body.isEmpty then (e.body, ([] : List Diagnostic))
      else checkDupGoSt e.body fn []
    let (es', ds2) := checkDupGoSt es fn step.2
    (e.setBody body' :: es', step.1 ++ ds1 ++ ds2)
termination_by elements _ _ => sizeOf elements
decreasing_by
  all_goals try have h1 := Element.sizeOf_body_lt e
  all_goals try simp
  all_goals try omega

theorem checkDupGoSt_eq (elements : List Element) (fn : String)
    (seen : List (String × Element)) :
    checkDupGoSt elements fn seen = (elements, checkDupGo elements fn seen) := by
  induction elements, fn, seen using checkDupGoSt.induct with
  | case1 fn seen => rw [checkDupGoSt, checkDupGo]
  | case2 e es fn seen step p1 p2 hp q1 q2 hq ihA ihB =>
    rw [checkDupGoSt, checkDupGo]
    simp only [step] at ihB
    simp only [dite_eq_ite] at ihB
    by_cases hb : e.body.isEmpty
    · simp [hb, ihA, ihB, Element.setBody_body]
    · simp [hb, ihA, ihB, Element.setBody_body]

def NamingRule.checkSt (file : File) : File × List Diagnostic :=
  let (es, ds) := walkSt namingVisit file.elements file.filename none
  (File.mk file.filename es, ds)

def DocumentationRule.checkSt (file : File) : File × List Diagnostic :=
  let (es, ds) := walkSt documentationVisit file.elements file.filename none
  (File.mk file.filename es, ds)

def StructureRule.checkSt (file : File) : File × List Diagnostic :=
  let (es, ds) := walkSt structureVisit file.elements file.filename none
  (File.mk file.filename es, ds)

def ScopeRule.checkSt (file : File) : File × List Diagnostic :=
  let (es, ds) := checkDupGoSt file.elements file.filename []
  let f1 := File.mk file.filename es
  (f1, ds ++ checkUnusedImports f1)

/-- `check_file`, threading the `File` through all four rules in registration
order before sorting. -/
def checkFileSt (file : File) (rule_ids : Option (List String)) :
    File × List Diagnostic :=
  let keep := fun (ds : List Diagnostic) =>
    match rule_ids with
    | some ids => ds.filter (fun d => d.rule_id ∈ ids)
    | none => ds
  let (f1, d1) := NamingRule.checkSt file
  let (f2, d2) := DocumentationRule.checkSt f1
  let (f3, d3) := StructureRule.checkSt f2
  let (f4, d4) := ScopeRule.checkSt f3
  (f4, sortDiags (keep d1 ++ keep d2 ++ keep d3 ++ keep d4))

/-! ## Order properties of the diagnostic sort (claim C3) -/

theorem bool_eq_false {b : Bool} (h : ¬ b = true) : b = false := by
  cases b
  · rfl
  · exact absurd rfl h

theorem lexLtChars_irrefl : ∀ as, lexLtChars as as = false := by
  intro as
  induction as with
  | nil => rfl
  | cons a as ih =>
    rw [lexLtChars, if_neg (lt_irrefl _), if_neg (lt_irrefl _), ih]

theorem lexLtChars_asymm : ∀ as bs, lexLtChars as bs = true → lexLtChars bs as = false := by
  intro as
  induction as with
  | nil =>
    intro bs h
    cases bs with
    | nil => rfl
    | cons b bs => rfl
  | cons a as ih =>
    intro bs h
    cases bs with
    | nil => exact absurd h (by rw [lexLtChars]; simp)
    | cons b bs =>
      rw [lexLtChars] at h ⊢
      by_cases h1 : a.toNat < b.toNat
      · rw [if_neg (by omega), if_pos (by omega)]
      · by_cases h2 : b.toNat < a.toNat
        · rw [if_neg h1, if_pos h2] at h
          exact absurd h (by simp)
        · rw [if_neg h1, if_neg h2] at h
          rw [if_neg h2, if_neg h1]
          exact ih bs h

theorem lexLtChars_eq_of_not : ∀ as bs, lexLtChars as bs = false →
    lexLtChars bs as = false → as = bs := by
  intro as
  induction as with
  | nil =>
    intro bs h1 h2
    cases bs with
    | nil => rfl
    | cons b bs => exact absurd h1 (by rw [lexLtChars]; simp)
  | cons a as ih =>
    intro bs h1 h2
    cases bs with
    | nil => exact absurd h2 (by rw [lexLtChars]; simp)
    | cons b bs =>
      rw [lexLtChars] at h1 h2
      by_cases hab : a.toNat < b.toNat
      · rw [if_pos hab] at h1
        exact absurd h1 (by simp)
      · by_cases hba : b.toNat < a.toNat
        · rw [if_pos hba] at h2
          exact absurd h2 (by simp)
        · rw [if_neg hab, if_neg hba] at h1
          rw [if_neg hba, if_neg hab] at h2
          have hv : a = b := by
            have hn : a.toNat = b.toNat := by omega
            exact Char.eq_of_val_eq (UInt32.toNat.inj hn)
          rw [hv, ih bs h1 h2]

theorem lexLtChars_trans : ∀ as bs cs, lexLtChars as bs = true →
    lexLtChars bs cs = true → lexLtChars as cs = true := by
  intro as
  induction as with
  | nil =>
    intro bs cs h1 h2
    cases bs with
    | nil => simp [lexLtChars] at h1
    | cons b bs =>
      cases cs with
      | nil => simp [lexLtChars] at h2
      | cons c cs => rw [lexLtChars]
  | cons a as ih =>
    intro bs cs h1 h2
    cases bs with
    | nil => exact absurd h1 (by rw [lexLtChars]; simp)
    | cons b bs =>
      cases cs with
      | nil => exact absurd h2 (by rw [lexLtChars]; simp)
      | cons c cs =>
        rw [lexLtChars] at h1 h2 ⊢
        by_cases hab : a.toNat < b.toNat
        · by_cases hbc : b.toNat < c.toNat
          · rw [if_pos (by omega : a.toNat < c.toNat)]
          · by_cases hcb : c.toNat < b.toNat
            · rw [if_neg hbc, if_pos hcb] at h2
              exact absurd h2 (by simp)
            · rw [if_pos (by omega : a.toNat < c.toNat)]
        · by_cases hba : b.toNat < a.toNat
          · rw [if_neg hab, if_pos hba] at h1
            exact absurd h1 (by simp)
          · rw [if_neg hab, if_neg hba] at h1
            by_cases hbc : b.toNat < c.toNat
            · rw [if_pos (by omega : a.toNat < c.toNat)]
            · by_cases hcb : c.toNat < b.toNat
              · rw [if_neg hbc, if_pos hcb] at h2
                exact absurd h2 (by simp)
              · rw [if_neg hbc, if_neg hcb] at h2
                rw [if_neg (by omega : ¬ a.toNat < c.toNat),
                    if_neg (by omega : ¬ c.toNat < a.toNat)]
                exact ih bs cs h1 h2

def key3 (d : Diagnostic) : String × Nat × Nat := (d.filename, d.line, d.col)

theorem diagLt_of_key3 {a b : Diagnostic} (h : key3 a = key3 b) (c : Diagnostic) :
    diagLt a c = diagLt b c ∧ diagLt c a = diagLt c b := by
  unfold key3 at h
  simp only [Prod.mk.injEq] at h
  unfold diagLt
  rw [h.1, h.2.1, h.2.2]
  exact ⟨rfl, rfl⟩

theorem key3_ne_of_diagLt {a b : Diagnostic} (h : diagLt a b = true) :
    key3 a ≠ key3 b := by
  intro he
  have h2 := (diagLt_of_key3 he b).1
  rw [h] at h2
  unfold diagLt at h2
  rw [lexLtChars_irrefl] at h2
  simp at h2

theorem diagLt_asymm {a b : Diagnostic} (h : diagLt a b = true) :
    diagLt b a = false := by
  unfold diagLt at *
  by_cases h1 : lexLtChars a.filename.data b.filename.data = true
  · rw [if_neg (by rw [lexLtChars_asymm _ _ h1]; simp), if_pos h1]
  · by_cases h2 : lexLtChars b.filename.data a.filename.data = true
    · rw [if_neg h1, if_pos h2] at h
      exact absurd h (by simp)
    · rw [if_neg h1, if_neg h2] at h
      rw [if_neg h2, if_neg h1]
      by_cases h3 : a.line < b.line
      · rw [if_neg (by omega : ¬ b.line < a.line), if_pos (by omega : a.line < b.line)]
      · by_cases h4 : b.line < a.line
        · rw [if_neg h3, if_pos h4] at h
          exact absurd h (by simp)
        · rw [if_neg h3, if_neg h4] at h
          rw [if_neg h4, if_neg h3]
          simp only [decide_eq_true_eq] at h
          simp only [decide_eq_false_iff_not]
          omega

theorem diagLt_both_false_key {a b : Diagnostic} (h1 : diagLt a b = false)
    (h2 : diagLt b a = false) : key3 a = key3 b := by
  unfold diagLt at h1 h2
  by_cases g1 : lexLtChars a.filename.data b.filename.data = true
  · rw [if_pos g1] at h1
    exact absurd h1 (by simp)
  · by_cases g2 : lexLtChars b.filename.data a.filename.data = true
    · rw [if_pos g2] at h2
      exact absurd h2 (by simp)
    · have hf : a.filename = b.filename := by
        have hd := lexLtChars_eq_of_not _ _ (bool_eq_false g1) (bool_eq_false g2)
        cases hfa : a.filename
        cases hfb : b.filename
        rw [hfa, hfb] at hd
        simp at hd
        rw [hd]
      rw [if_neg g1, if_neg g2] at h1
      rw [if_neg g2, if_neg g1] at h2
      by_cases g3 : a.line < b.line
      · rw [if_pos g3] at h1
        exact absurd h1 (by simp)
      · by_cases g4 : b.line < a.line
        · rw [if_pos g4] at h2
          exact absurd h2 (by simp)
        · rw [if_neg g3, if_neg g4] at h1
          rw [if_neg g4, if_neg g3] at h2
          simp only [decide_eq_false_iff_not] at h1 h2
          unfold key3
          rw [hf]
          have hl : a.line = b.line := by omega
          have hc : a.col = b.col := by omega
          rw [hl, hc]

theorem diagLt_trans {a b c : Diagnostic} (h1 : diagLt a b = true)
    (h2 : diagLt b c = true) : diagLt a c = true := by
  unfold diagLt at *
  by_cases f1 : lexLtChars a.filename.data b.filename.data = true
  · by_cases f2 : lexLtChars b.filename.data c.filename.data = true
    · rw [if_pos (lexLtChars_trans _ _ _ f1 f2)]
    · by_cases f3 : lexLtChars c.filename.data b.filename.data = true
      · rw [if_neg f2, if_pos f3] at h2
        exact absurd h2 (by simp)
      · have hd := lexLtChars_eq_of_not _ _ (bool_eq_false f2) (bool_eq_false f3)
        rw [← hd]
        rw [if_pos f1]
  · by_cases f0 : lexLtChars b.filename.data a.filename.data = true
    · rw [if_neg f1, if_pos f0] at h1
      exact absurd h1 (by simp)
    · have hd := lexLtChars_eq_of_not _ _ (bool_eq_false f1) (bool_eq_false f0)
      rw [if_neg f1, if_neg f0] at h1
      by_cases f2 : lexLtChars b.filename.data c.filename.data = true
      · rw [hd, if_pos f2]
      · by_cases f3 : lexLtChars c.filename.data b.filename.data = true
        · rw [if_neg f2, if_pos f3] at h2
          exact absurd h2 (by simp)
        · have hd2 := lexLtChars_eq_of_not _ _ (bool_eq_false f2) (bool_eq_false f3)
          rw [if_neg f2, if_neg f3] at h2
          rw [if_neg (by rw [hd, hd2]; exact (by rw [lexLtChars_irrefl]; simp)),
              if_neg (by rw [hd, hd2]; exact (by rw [lexLtChars_irrefl]; simp))]
          by_cases g1 : a.line < b.line
          · by_cases g2 : b.line < c.line
            · rw [if_pos (by omega : a.line < c.line)]
            · by_cases g3 : c.line < b.line
              · rw [if_neg g2, if_pos g3] at h2
                exact absurd h2 (by simp)
              · rw [if_pos (by omega : a.line < c.line)]
          · by_cases g0 : b.line < a.line
            · rw [if_neg g1, if_pos g0] at h1
              exact absurd h1 (by simp)
            · rw [if_neg g1, if_neg g0] at h1
              by_cases g2 : b.line < c.line
              · rw [if_pos (by omega : a.line < c.line)]
              · by_cases g3 : c.line < b.line
                · rw [if_neg g2, if_pos g3] at h2
                  exact absurd h2 (by simp)
                · rw [if_neg g2, if_neg g3] at h2
                  rw [if_neg (by omega : ¬ a.line < c.line),
                      if_neg (by omega : ¬ c.line < a.line)]
                  simp only [decide_eq_true_eq] at h1 h2 ⊢
                  omega

theorem diagLt_negtrans {x e d : Diagnostic} (h1 : diagLt x e = false)
    (h2 : diagLt e d = false) : diagLt x d = false := by
  by_cases hex : diagLt e x = true
  · by_cases hde : diagLt d e = true
    · exact diagLt_asymm (diagLt_trans hde hex)
    · have hk := diagLt_both_false_key h2 (bool_eq_false hde)
      rw [← (diagLt_of_key3 hk x).2]
      exact h1
  · have hk := diagLt_both_false_key h1 (bool_eq_false hex)
    rw [(diagLt_of_key3 hk d).1]
    exact h2

theorem mem_insertDiag {x d : Diagnostic} {l : List Diagnostic} :
    x ∈ insertDiag d l ↔ x = d ∨ x ∈ l := by
  induction l with
  | nil => simp [insertDiag]
  | cons e es ih =>
    rw [insertDiag]
    split
    · simp only [List.mem_cons, ih]
      tauto
    · simp only [List.mem_cons]

theorem pairwise_insertDiag {d : Diagnostic} {l : List Diagnostic}
    (h : l.Pairwise (fun a b => diagLt b a = false)) :
    (insertDiag d l).Pairwise (fun a b => diagLt b a = false) := by
  induction l with
  | nil => simp [insertDiag]
  | cons e es ih =>
    rw [insertDiag]
    rw [List.pairwise_cons] at h
    by_cases hc : diagLt e d = true
    · rw [if_pos hc]
      rw [List.pairwise_cons]
      refine ⟨?_, ih h.2⟩
      intro x hx
      rcases mem_insertDiag.mp hx with rfl | hxe
      · exact diagLt_asymm hc
      · exact h.1 x hxe
    · rw [if_neg hc]
      rw [List.pairwise_cons]
      have hc' : diagLt e d = false := bool_eq_false hc
      refine ⟨?_, List.pairwise_cons.mpr h⟩
      intro x hx
      rcases List.mem_cons.mp hx with rfl | hxe
      · exact hc'
      · exact diagLt_negtrans (h.1 x hxe) hc'

theorem sortDiags_pairwise (l : List Diagnostic) :
    (sortDiags l).Pairwise (fun a b => diagLt b a = false) := by
  induction l with
  | nil => simp [sortDiags]
  | cons d ds ih =>
    rw [sortDiags]
    exact pairwise_insertDiag ih

theorem filter_insertDiag (k : String × Nat × Nat) (d : Diagnostic)
    (l : List Diagnostic) :
    (insertDiag d l).filter (fun x => decide (key3 x = k)) =
      if key3 d = k then d :: l.filter (fun x => decide (key3 x = k))
      else l.filter (fun x => decide (key3 x = k)) := by
  induction l with
  | nil =>
    rw [insertDiag]
    by_cases hd : key3 d = k <;> simp [hd]
  | cons e es ih =>
    rw [insertDiag]
    by_cases hc : diagLt e d = true
    · simp only [hc, if_true, List.filter_cons]
      by_cases hd : key3 d = k
      · have hek : ¬ key3 e = k := by
          rw [← hd]
          exact key3_ne_of_diagLt hc
        simp [hd, hek, ih, List.filter_cons]
      · by_cases hek : key3 e = k <;> simp [hd, hek, ih, List.filter_cons]
    · simp only [hc, if_false, List.filter_cons]
      by_cases hd : key3 d = k <;> by_cases hek : key3 e = k <;>
        simp [hd, hek, List.filter_cons]

theorem sortDiags_filter (k : String × Nat × Nat) (l : List Diagnostic) :
    (sortDiags l).filter (fun x => decide (key3 x = k)) =
      l.filter (fun x => decide (key3 x = k)) := by
  induction l with
  | nil => rfl
  | cons d ds ih =>
    rw [sortDiags, filter_insertDiag, List.filter_cons]
    by_cases hd : key3 d = k <;> simp [hd, ih]

/-- C3: for every File and every optional rule-id set, the diagnostic list
returned by check is sorted non-decreasing by the key (filename, line, col);
diagnostics whose keys are equal keep the stable relative order in which the
rules produced them (their key-filtered subsequence equals that of the
unsorted rule output); severity and rule_id play no role in the ordering
(the comparison depends only on the key triple). -/
theorem C3_check_sorted_stable :
    ∀ (file : File) (rule_ids : Option (List String)),
      (checkFile file rule_ids).Pairwise (fun a b => diagLt b a = false) ∧
      (∀ k : String × Nat × Nat,
        (checkFile file rule_ids).filter (fun d => decide (key3 d = k)) =
          (gatherDiags file rule_ids).filter (fun d => decide (key3 d = k))) ∧
      (∀ a b c : Diagnostic, key3 a = key3 b →
        diagLt a c = diagLt b c ∧ diagLt c a = diagLt c b) := by
  intro file rule_ids
  exact ⟨sortDiags_pairwise _, fun k => sortDiags_filter k _,
    fun a b c h => diagLt_of_key3 h c⟩

/-- Witness for C3: the severity-irrelevance part applied at concrete
diagnostics sharing the key `("f", 1, 1)`. -/
theorem C3_check_sorted_stable_witness :
    diagLt (Diagnostic.mk "W001" .warning "m" "f" 1 1)
        (Diagnostic.mk "W031" .info "p" "f" 2 1) =
      diagLt (Diagnostic.mk "W010" .info "n" "f" 1 1)
        (Diagnostic.mk "W031" .info "p" "f" 2 1) ∧
    diagLt (Diagnostic.mk "W031" .info "p" "f" 2 1)
        (Diagnostic.mk "W001" .warning "m" "f" 1 1) =
      diagLt (Diagnostic.mk "W031" .info "p" "f" 2 1)
        (Diagnostic.mk "W010" .info "n" "f" 1 1) :=
  (C3_check_sorted_stable (File.mk "f" []) none).2.2
    (Diagnostic.mk "W001" .warning "m" "f" 1 1)
    (Diagnostic.mk "W010" .info "n" "f" 1 1)
    (Diagnostic.mk "W031" .info "p" "f" 2 1) rfl

/-! ## Claim C1: end-to-end on `part def Engine { part def Turbine; }` -/

def srcC1 : String := "part def Engine \x7b part def Turbine; \x7d"

def turbineC1 : Element :=
  Element.mk "part_def" true (some "Turbine") none [] none [] none [] 1 19 none false

def engineC1 : Element :=
  Element.mk "part_def" true (some "Engine") none [] none [turbineC1] none [] 1 1 none false

def fileC1 : File := File.mk "f" [engineC1]

/-- C1: the input `part def Engine { part def Turbine; }` tokenizes to
PART DEF IDENTIFIER(Engine) LBRACE PART DEF IDENTIFIER(Turbine) SEMI RBRACE
EOF; parses to a File with exactly one top-level `part_def` named Engine
whose body is exactly one `part_def` named Turbine with empty body; and check
with no rule filter yields exactly three diagnostics: a documentation-missing
info diagnostic for Engine, a documentation-missing info diagnostic for
Turbine, and a structure empty-body info diagnostic for Turbine, with no
naming diagnostic. -/
theorem C1_end_to_end :
    Lexer.tokenize srcC1 =
      [Token.mk .PART "part" 1 1, Token.mk .DEF "def" 1 6,
       Token.mk .IDENTIFIER "Engine" 1 10, Token.mk .LBRACE "\x7b" 1 17,
       Token.mk .PART "part" 1 19, Token.mk .DEF "def" 1 24,
       Token.mk .IDENTIFIER "Turbine" 1 28, Token.mk .SEMI ";" 1 35,
       Token.mk .RBRACE "\x7d" 1 37, Token.mk .EOF "" 1 38] ∧
    Parser.parse 50 (Lexer.tokenize srcC1) "f" = some fileC1 ∧
    checkFile fileC1 none =
      [Diagnostic.mk "W010" .info "Definition 'Engine' has no doc block." "f" 1 1,
       Diagnostic.mk "W010" .info "Definition 'Turbine' has no doc block." "f" 1 19,
       Diagnostic.mk "W020" .info "Definition 'Turbine' has an empty body." "f" 1 19] := by
  refine ⟨rfl, rfl, ?_⟩
  simp only [checkFile, gatherDiags, NamingRule.check, DocumentationRule.check,
    StructureRule.check, ScopeRule.check, checkDuplicates, checkUnusedImports,
    walk, checkDupGo, collectImports, collectReferences, fileC1, engineC1,
    turbineC1, Element.body, Element.kind, Element.name, Element.type_ref,
    Element.specializes, List.isEmpty_cons, List.isEmpty_nil]
  rfl

/-! ## Claim C2: the parser does not terminate on a stray top-level `}`

On the token stream of the source text `}`, `_parse_element` reaches its
final recovery branch while the cursor sits on RBRACE, where it returns
without advancing; `_parse_body(top_level=True)` never breaks on RBRACE, so
the loop repeats in the same state forever.  In the fuel model: for every
fuel budget the parse comes back empty. -/

def toksC2 : List Token := [Token.mk .RBRACE "\x7d" 1 1, Token.mk .EOF "" 1 2]

theorem parseBody_toksC2_none : ∀ fuel, parseBody fuel toksC2 0 true = none := by
  intro fuel
  induction fuel with
  | zero => rfl
  | succ f ih =>
    cases f with
    | zero => rfl
    | succ g =>
      have hstep : parseBody (g + 1 + 1) toksC2 0 true =
          match parseBody (g + 1) toksC2 0 true with
          | none => none
          | some (rest, p3) => some (([] : List Element) ++ rest, p3) := rfl
      rw [hstep, ih]

/-- C2: contrary to the claim that parse terminates on every token sequence,
the token stream of the one-character source `}` (a top-level closing brace
with no matching open brace) makes the parser loop forever: for every fuel
budget, the fuel-indexed parse returns nothing. -/
theorem C2_parse_diverges_on_stray_rbrace :
    Lexer.tokenize "\x7d" = toksC2 ∧
    ∀ fuel, Parser.parse fuel (Lexer.tokenize "\x7d") "f" = none := by
  refine ⟨rfl, fun fuel => ?_⟩
  have hbridge : Parser.parse fuel (Lexer.tokenize "\x7d") "f" =
      match parseBody fuel toksC2 0 true with
      | some (elements, _) => some (File.mk "f" elements)
      | none => none := rfl
  rw [hbridge, parseBody_toksC2_none]

/-! ## Claim C10: line comments never affect the parsed tree -/

/-- C10: for every fuel budget, token list and filename, parsing yields the
same result as parsing the same tokens with all line-comment tokens removed;
the parser discards line comments up front, so they cannot influence the
tree. -/
theorem C10_line_comments_no_effect :
    ∀ (fuel : Nat) (tokens : List Token) (filename : String),
      Parser.parse fuel tokens filename =
        Parser.parse fuel
          (tokens.filter (fun t => t.type != TokenType.LINE_COMMENT)) filename := by
  intro fuel tokens filename
  unfold Parser.parse
  rw [List.filter_filter]
  simp only [Bool.and_self]

/-! ## Claim C9: check leaves the File unchanged -/

/-- C9: for every File and every optional rule-id set, running the checker in
the state-threaded rendering returns the input File unchanged (every element,
with all its fields, is handed back exactly as it came) together with exactly
the diagnostics of the pure checker. -/
theorem C9_check_preserves_file :
    ∀ (file : File) (rule_ids : Option (List String)),
      checkFileSt file rule_ids = (file, checkFile file rule_ids) := by
  intro file rule_ids
  unfold checkFileSt NamingRule.checkSt DocumentationRule.checkSt
    StructureRule.checkSt ScopeRule.checkSt
  simp only [walkSt_eq, checkDupGoSt_eq]
  unfold checkFile gatherDiags NamingRule.check DocumentationRule.check
    StructureRule.check ScopeRule.check checkDuplicates
  rfl

/-! ## Claim C8: longest-match operator resolution -/

theorem tokenize_head (cs : List Char) :
    (Lexer.tokenize (String.mk cs)).head? = some (nextToken cs 1 1).1 := by
  rcases h : nextToken cs 1 1 with ⟨tok, rest⟩
  show (tokenizeGo ((String.mk cs).length + 1) cs 1 1).head? = _
  rw [tokenizeGo, h]
  by_cases ht : tok.type = TokenType.EOF <;> simp [ht]

/-- C8: operators are resolved longest-match first over the compound forms.
For every continuation of the input: `::>` yields one COLON_COLON_GT token
(not `::` then `>`), `:>>` yields one COLON_GT_GT token, `..` yields one
DOT_DOT token; a `!` not followed by `=` is emitted as an identifier-kind
placeholder token rather than failing; and a `:` followed by none of `:`,
`>`, `=` falls back to the single-character COLON token. -/
theorem C8_longest_match :
    ∀ s : List Char,
      (Lexer.tokenize (String.mk (':' :: ':' :: '>' :: s))).head? =
          some (Token.mk .COLON_COLON_GT "::>" 1 1) ∧
      (Lexer.tokenize (String.mk (':' :: '>' :: '>' :: s))).head? =
          some (Token.mk .COLON_GT_GT ":>>" 1 1) ∧
      (Lexer.tokenize (String.mk ('.' :: '.' :: s))).head? =
          some (Token.mk .DOT_DOT ".." 1 1) ∧
      (s.head? ≠ some '=' →
        (Lexer.tokenize (String.mk ('!' :: s))).head? =
          some (Token.mk .IDENTIFIER "!" 1 1)) ∧
      (s.head? ≠ some ':' → s.head? ≠ some '>' → s.head? ≠ some '=' →
        (Lexer.tokenize (String.mk (':' :: s))).head? =
          some (Token.mk .COLON ":" 1 1)) := by
  intro s
  refine ⟨?_, ?_, ?_, ?_, ?_⟩
  · rw [tokenize_head]
    rfl
  · rw [tokenize_head]
    rfl
  · rw [tokenize_head]
    rfl
  · cases s with
    | nil =>
      intro _
      rw [tokenize_head]
      rfl
    | cons c cs =>
      intro h
      have hc : ('=' == c) = false := by
        cases hcc : ('=' == c)
        · rfl
        · exfalso
          apply h
          rw [show c = '=' from (beq_iff_eq.mp hcc).symm]
          rfl
      have e1 : leadsWith ['=', '='] (c :: cs) = false := by
        rw [leadsWith, hc]
        rfl
      have e2 : leadsWith ['='] (c :: cs) = false := by
        rw [leadsWith, hc]
        rfl
      have hop : nextToken ('!' :: c :: cs) 1 1 = opToken '!' (c :: cs) 1 1 2 := rfl
      rw [tokenize_head, hop]
      unfold opToken
      rw [e1, e2]
      rfl
  · cases s with
    | nil =>
      intro _ _ _
      rw [tokenize_head]
      rfl
    | cons c cs =>
      intro h1 h2 h3
      have mkb : ∀ x : Char, c ≠ x → (x == c) = false := by
        intro x hx
        cases hcc : (x == c)
        · rfl
        · exact absurd (beq_iff_eq.mp hcc).symm hx
      have hcol : (':' == c) = false := mkb ':' (fun hh => h1 (by rw [hh]; rfl))
      have hgt : ('>' == c) = false := mkb '>' (fun hh => h2 (by rw [hh]; rfl))
      have heq : ('=' == c) = false := mkb '=' (fun hh => h3 (by rw [hh]; rfl))
      have e1 : leadsWith [':', '>'] (c :: cs) = false := by
        rw [leadsWith, hcol]
        rfl
      have e2 : leadsWith ['>', '>'] (c :: cs) = false := by
        rw [leadsWith, hgt]
        rfl
      have e3 : leadsWith [':'] (c :: cs) = false := by
        rw [leadsWith, hcol]
        rfl
      have e4 : leadsWith ['>'] (c :: cs) = false := by
        rw [leadsWith, hgt]
        rfl
      have e5 : leadsWith ['='] (c :: cs) = false := by
        rw [leadsWith, heq]
        rfl
      have hop : nextToken (':' :: c :: cs) 1 1 = opToken ':' (c :: cs) 1 1 2 := rfl
      rw [tokenize_head, hop]
      unfold opToken
      rw [e1, e2, e3, e4, e5]
      rfl

/-- Witness for C8: the hypotheses discharged on the concrete continuation
`"a"`, so `!a` lexes to an identifier placeholder and `:a` to a plain colon. -/
theorem C8_longest_match_witness :
    (Lexer.tokenize (String.mk ('!' :: ['a']))).head? =
        some (Token.mk .IDENTIFIER "!" 1 1) ∧
    (Lexer.tokenize (String.mk (':' :: ['a']))).head? =
        some (Token.mk .COLON ":" 1 1) :=
  ⟨(C8_longest_match ['a']).2.2.2.1 (by decide),
   (C8_longest_match ['a']).2.2.2.2 (by decide) (by decide) (by decide)⟩

/-! ## Claim C5: duplicate names per scope -/

theorem Element.kind_setBody (e : Element) (b : List Element) :
    (e.setBody b).kind = e.kind := by
  cases e
  rfl

theorem Element.name_setBody (e : Element) (b : List Element) :
    (e.setBody b).name = e.name := by
  cases e
  rfl

theorem Element.body_setBody (e : Element) (b : List Element) :
    (e.setBody b).body = b := by
  cases e
  rfl

/-- C5: two sibling elements of scope-contributing kinds in the same body,
whose (non-empty) names are equal case-insensitively, yield exactly one
duplicate-name diagnostic, positioned at the second occurrence and whose
message references the first occurrence's line; nesting the second element
inside the first one's body instead yields no duplicate diagnostic. -/
theorem C5_duplicate_names :
    ∀ (e1 e2 : Element) (fn n1 n2 : String),
      e1.kind ∈ NAMED_KINDS → e2.kind ∈ NAMED_KINDS →
      e1.name = some n1 → e2.name = some n2 →
      n1 ≠ "" → n2 ≠ "" →
      pyLower n1 = pyLower n2 →
      e1.body = [] → e2.body = [] →
      checkDuplicates [e1, e2] fn =
        [Diagnostic.mk "W030" .warning (dupMsg n2 e1.line) fn e2.line e2.col] ∧
      checkDuplicates [e1.setBody [e2]] fn = [] := by
  intro e1 e2 fn n1 n2 hk1 hk2 hn1 hn2 hne1 hne2 hlow hb1 hb2
  constructor
  · rw [checkDuplicates, checkDupGo]
    rw [checkDupGo]
    rw [checkDupGo]
    simp only [hn1, hn2, hb1, hb2, List.isEmpty_nil, pyTruthy, Option.getD_some,
      List.find?, if_true, List.find?_nil]
    rw [if_pos (show e1.kind ∈ NAMED_KINDS ∧ n1 ≠ "" from ⟨hk1, hne1⟩),
        if_pos (show e2.kind ∈ NAMED_KINDS ∧ n2 ≠ "" from ⟨hk2, hne2⟩)]
    simp only [List.find?_cons, hlow, beq_self_eq_true]
    simp
  · rw [checkDuplicates, checkDupGo]
    rw [checkDupGo]
    simp only [Element.kind_setBody, Element.name_setBody, Element.body_setBody,
      hn1, hn2, hb2, pyTruthy, Option.getD_some, List.find?_nil,
      List.isEmpty_cons, List.isEmpty_nil]
    rw [if_pos (show e1.kind ∈ NAMED_KINDS ∧ n1 ≠ "" from ⟨hk1, hne1⟩)]
    have h2 : checkDupGo [e2] fn [] = [] := by
      rw [checkDupGo]
      simp only [hn2, hb2, pyTruthy, Option.getD_some, List.find?_nil,
        List.isEmpty_nil]
      rw [if_pos (show e2.kind ∈ NAMED_KINDS ∧ n2 ≠ "" from ⟨hk2, hne2⟩)]
      simp [checkDupGo]
    simp [h2]

/-- Witness for C5: two part usages named `Foo` and `foo` in one scope, and
the nested variant. -/
theorem C5_duplicate_names_witness :
    checkDuplicates
        [Element.mk "part" false (some "Foo") none [] none [] none [] 1 1 none false,
         Element.mk "part" false (some "foo") none [] none [] none [] 2 3 none false] "f" =
      [Diagnostic.mk "W030" .warning (dupMsg "foo" 1) "f" 2 3] ∧
    checkDuplicates
        [(Element.mk "part" false (some "Foo") none [] none [] none [] 1 1 none
          false).setBody
          [Element.mk "part" false (some "foo") none [] none [] none [] 2 3 none false]]
        "f" = [] :=
  C5_duplicate_names
    (Element.mk "part" false (some "Foo") none [] none [] none [] 1 1 none false)
    (Element.mk "part" false (some "foo") none [] none [] none [] 2 3 none false)
    "f" "Foo" "foo" (by decide) (by decide) rfl rfl (by decide) (by decide)
    (by decide) rfl rfl

/-! ## Claim C6: quoted names and the naming rule

The parser stores quoted names with the quotes stripped
(`_parse_name_token` returns `value.strip("'")`), so `_is_quoted` never sees
the quote and the naming rule fires on the dequoted text. -/

def srcC6 : String := "part def 'weird name';"

def fileC6 : File := File.mk "f"
  [Element.mk "part_def" true (some "weird name") none [] none [] none [] 1 1 none false]

/-- C6 (code evaluation): for the source `part def 'weird name';`, whose
element name was written as a quoted string, check DOES produce a naming
diagnostic (W001) on the dequoted name — the parser strips the quotes before
the naming rule's quoted-name exemption can see them. -/
theorem C6_quoted_name_gets_naming_diag :
    Parser.parse 50 (Lexer.tokenize srcC6) "f" = some fileC6 ∧
    checkFile fileC6 none =
      [Diagnostic.mk "W001" .warning
        "Definition 'weird name' should use PascalCase (e.g. 'WeirdName')." "f" 1 1,
       Diagnostic.mk "W010" .info "Definition 'weird name' has no doc block." "f" 1 1,
       Diagnostic.mk "W020" .info "Definition 'weird name' has an empty body." "f" 1 1] := by
  refine ⟨rfl, ?_⟩
  simp only [checkFile, gatherDiags, NamingRule.check, DocumentationRule.check,
    StructureRule.check, ScopeRule.check, checkDuplicates, checkUnusedImports,
    walk, checkDupGo, collectImports, collectReferences, fileC6, Element.body,
    Element.kind, Element.name, Element.type_ref, Element.specializes,
    List.isEmpty_cons, List.isEmpty_nil]
  rfl

/-! ## Claim C7: packages and namespaces never get a documentation finding

`DocumentationRule._visit` lets package/namespace elements through the early
return, but both emission branches additionally require a definition kind
(`is_req` / `is_def`), which packages are not — so no documentation
diagnostic is ever produced for them. -/

def srcC7 : String := "package Pkg;"

def fileC7 : File := File.mk "f"
  [Element.mk "package" false (some "Pkg") none [] none [] none [] 1 1 none false]

/-- C7 (code evaluation): a named package with no doc at all yields NO
documentation diagnostic (and no diagnostic whatsoever), contrary to the
claim that packages and namespaces lacking a doc receive the
missing-documentation info finding. -/
theorem C7_package_no_doc_diag :
    Parser.parse 50 (Lexer.tokenize srcC7) "f" = some fileC7 ∧
    DocumentationRule.check fileC7 = [] ∧
    checkFile fileC7 none = [] := by
  refine ⟨rfl, ?_, ?_⟩
  · simp only [DocumentationRule.check, walk, fileC7, Element.body]
    rfl
  · simp only [checkFile, gatherDiags, NamingRule.check, DocumentationRule.check,
      StructureRule.check, ScopeRule.check, checkDuplicates, checkUnusedImports,
      walk, checkDupGo, collectImports, collectReferences, fileC7, Element.body,
      Element.kind, Element.name, List.isEmpty_cons, List.isEmpty_nil]
    rfl

/-! ## Claim C4: unused-import reporting

`ScopeRule._check_unused_imports` collects every `import` element of the tree
and the set of `::`-segments of every `type_ref`/`specializes` value; a
non-wildcard import is reported unused exactly when neither its last path
segment nor its whole path is in that set. -/

def srcC4 : String := "import A::B::C;"

def impC4 : Element :=
  Element.mk "import" false none none [] none [] none [] 1 1 (some "A::B::C") false

def fileC4 : File := File.mk "f" [impC4]

def partC4 : Element :=
  Element.mk "part" false (some "x") (some "X::C") [] none [] none [] 2 1 none false

def fileC4s : File := File.mk "f" [impC4, partC4]

/-- Every element of the tree, in preorder. -/
def elemsIn : List Element → List Element
  | [] => []
  | e :: es => e :: (elemsIn e.body ++ elemsIn es)
termination_by elements => sizeOf elements
decreasing_by
  all_goals try have h1 := Element.sizeOf_body_lt e
  all_goals try simp
  all_goals try omega

/-- Each `::`-segment of the `type_ref` of any element of the tree lands in
the collected reference set. -/
lemma mem_collectReferences_of_type_ref :
    ∀ (els : List Element) (e : Element) (tr seg : String),
      e ∈ elemsIn els → e.type_ref = some tr → tr ≠ "" →
      seg ∈ pySplit "::" tr → seg ∈ collectReferences els := by
  intro els
  induction els using elemsIn.induct with
  | case1 =>
    intro e tr seg hmem htr hne hseg
    simp [elemsIn] at hmem
  | case2 e es ih1 ih2 =>
    intro e2 tr seg hmem htr hne hseg
    simp only [elemsIn] at hmem
    rw [List.mem_cons] at hmem
    rcases hmem with rfl | hmem
    · simp [collectReferences, htr, hne, hseg]
    · rcases List.mem_append.mp hmem with h | h
      · have hx := ih1 e2 tr seg h htr hne hseg
        simp [collectReferences, List.mem_append, hx]
      · have hx := ih2 e2 tr seg h htr hne hseg
        simp [collectReferences, List.mem_append, hx]

/-- The unused-import message determines the import's label. -/
lemma unusedImportMsg_label (imp : Element) (lbl : String)
    (h : unusedImportMsg imp = "Import '" ++ lbl ++ "' appears to be unused.") :
    imp.import_path.getD "" ++ (if imp.import_star then "::*" else "") = lbl := by
  have hd := congrArg String.data h
  simp only [unusedImportMsg, String.data_append, List.append_assoc] at hd
  have h1 := List.append_cancel_left hd
  rw [← List.append_assoc] at h1
  have h2 := List.append_cancel_right h1
  apply String.ext
  rw [String.data_append]
  exact h2

/-- A wildcard import's label always ends in the star. -/
lemma label_star_last (p : String) : (p ++ "::*").data.getLast? = some '*' := by
  rw [String.data_append, List.getLast?_append]
  rfl

/-- Inversion for membership in the unused-import diagnostics: the
diagnostic comes from some collected import with a nonempty path, and if
that import is non-wildcard, neither its leaf segment nor its whole path is
referenced. -/
lemma checkUnusedImports_mem_elim (file : File) (d : Diagnostic)
    (hd : d ∈ checkUnusedImports file) :
    ∃ imp ∈ collectImports file.elements, ∃ path : String,
      imp.import_path = some path ∧ ¬ path = "" ∧
      d = mkUnusedDiag file.filename imp ∧
      (imp.import_star = false →
        ¬ (pySplit "::" path).getLastD "" ∈ collectReferences file.elements ∧
        ¬ path ∈ collectReferences file.elements) := by
  cases hemp : (collectImports file.elements).isEmpty with
  | true => simp [checkUnusedImports, hemp] at hd
  | false =>
    simp only [checkUnusedImports, hemp, Bool.false_eq_true, if_false] at hd
    rw [List.mem_flatten] at hd
    obtain ⟨l, hl, hdl⟩ := hd
    rw [List.mem_map] at hl
    obtain ⟨imp, himp, rfl⟩ := hl
    rcases hpath : imp.import_path with _ | path
    · rw [hpath] at hdl
      simp at hdl
    · rw [hpath] at hdl
      simp only [] at hdl
      by_cases hpe : path = ""
      · subst hpe
        simp at hdl
      · rw [if_neg hpe] at hdl
        cases hstar : imp.import_star with
        | false =>
          simp only [hstar, Bool.false_eq_true, if_false] at hdl
          simp at hdl
          exact ⟨imp, himp, path, hpath, hpe, hdl.2, fun _ =>
            ⟨by rw [List.getLastD_eq_getLast?]; exact hdl.1.1, hdl.1.2⟩⟩
        | true =>
          simp only [hstar, if_true] at hdl
          simp at hdl
          exact ⟨imp, himp, path, hpath, hpe, hdl.2, fun hf => by
            rw [hstar] at hf
            exact absurd hf (by decide)⟩

/-- C4: (1) on a file whose only element is `import A::B::C;`, check yields
exactly one diagnostic, the unused-import info W031; (2) in any file, if any
element anywhere in the tree has a `type_ref` containing the literal segment
`C`, no unused-import diagnostic about `A::B::C` is produced; (3) in
general, a collected non-wildcard import with a nonempty path (not ending in
a star character) is reported unused if and only if neither its last path
segment nor its whole path appears in the set of literal segments collected
from every `type_ref` and `specializes` value in the tree. -/
theorem C4_unused_import_reporting :
    (Parser.parse 50 (Lexer.tokenize srcC4) "f" = some fileC4 ∧
      checkFile fileC4 none =
        [Diagnostic.mk "W031" .info "Import 'A::B::C' appears to be unused." "f" 1 1]) ∧
    (∀ (file : File) (e : Element) (tr : String),
        e ∈ elemsIn file.elements → e.type_ref = some tr →
        "C" ∈ pySplit "::" tr →
        ∀ d ∈ checkUnusedImports file,
          d.message ≠ "Import 'A::B::C' appears to be unused.") ∧
    (∀ (file : File) (imp : Element) (path : String),
        imp ∈ collectImports file.elements →
        imp.import_star = false →
        imp.import_path = some path → path ≠ "" →
        path.data.getLast? ≠ some '*' →
        (mkUnusedDiag file.filename imp ∈ checkUnusedImports file ↔
          ¬ (pySplit "::" path).getLastD "" ∈ collectReferences file.elements ∧
          ¬ path ∈ collectReferences file.elements)) := by
  refine ⟨⟨rfl, ?_⟩, ?_, ?_⟩
  · simp only [checkFile, gatherDiags, NamingRule.check, DocumentationRule.check,
      StructureRule.check, ScopeRule.check, checkDuplicates, checkUnusedImports,
      walk, checkDupGo, collectImports, collectReferences, fileC4, impC4,
      Element.body, Element.kind, Element.name, Element.type_ref,
      Element.specializes, List.isEmpty_cons, List.isEmpty_nil]
    rfl
  · intro file e tr hmem htr hseg d hd hmsg
    have hne : tr ≠ "" := by
      rintro rfl
      exact absurd hseg (by decide)
    have hC : "C" ∈ collectReferences file.elements :=
      mem_collectReferences_of_type_ref file.elements e tr "C" hmem htr hne hseg
    obtain ⟨imp, himp, path, hpath, hpe, rfl, hnonstar⟩ :=
      checkUnusedImports_mem_elim file d hd
    have hmsg2 : unusedImportMsg imp =
        "Import '" ++ "A::B::C" ++ "' appears to be unused." := hmsg
    have hlabel := unusedImportMsg_label imp "A::B::C" hmsg2
    cases hstar : imp.import_star with
    | false =>
      simp only [hstar, Bool.false_eq_true, if_false] at hlabel
      rw [hpath] at hlabel
      simp only [Option.getD_some, String.append_empty] at hlabel
      subst hlabel
      exact (hnonstar hstar).1 (by
        have hleaf : (pySplit "::" "A::B::C").getLastD "" = "C" := by decide
        rw [hleaf]
        exact hC)
    | true =>
      simp only [hstar, if_true] at hlabel
      have h1 := label_star_last (imp.import_path.getD "")
      rw [hlabel] at h1
      exact absurd h1 (by decide)
  · intro file imp path himp hstar hpath hpe hlast
    constructor
    · intro hd
      obtain ⟨imp2, himp2, path2, hpath2, hpe2, heq, hnonstar2⟩ :=
        checkUnusedImports_mem_elim file _ hd
      have hmsg : unusedImportMsg imp = unusedImportMsg imp2 :=
        congrArg Diagnostic.message heq
      have hform : unusedImportMsg imp =
          "Import '" ++ path ++ "' appears to be unused." := by
        simp [unusedImportMsg, hpath, hstar]
      have hlabel := unusedImportMsg_label imp2 path (hmsg.symm.trans hform)
      cases hstar2 : imp2.import_star with
      | false =>
        simp only [hstar2, Bool.false_eq_true, if_false] at hlabel
        rw [hpath2] at hlabel
        simp only [Option.getD_some, String.append_empty] at hlabel
        subst hlabel
        exact hnonstar2 hstar2
      | true =>
        simp only [hstar2, if_true] at hlabel
        have h1 := label_star_last (imp2.import_path.getD "")
        rw [hlabel] at h1
        exact absurd h1 hlast
    · rintro ⟨hleaf, hfull⟩
      have hne : (collectImports file.elements).isEmpty = false :=
        List.isEmpty_eq_false.mpr (List.ne_nil_of_mem himp)
      simp only [checkUnusedImports, hne, Bool.false_eq_true, if_false]
      rw [List.mem_flatten]
      refine ⟨_, List.mem_map_of_mem _ himp, ?_⟩
      have hleaf2 : (pySplit "::" path).getLast?.getD "" ∉ collectReferences file.elements := by
        rw [← List.getLastD_eq_getLast?]
        exact hleaf
      simp [hpath, hpe, hstar, hleaf, hleaf2, hfull]

/-- C4, exercised concretely: the suppression part on the two-element file
`import A::B::C; part x : X::C;`, and the general criterion on the
import-only file. -/
theorem C4_unused_import_reporting_witness :
    (∀ d ∈ checkUnusedImports fileC4s,
        d.message ≠ "Import 'A::B::C' appears to be unused.") ∧
    (mkUnusedDiag fileC4.filename impC4 ∈ checkUnusedImports fileC4 ↔
      ¬ (pySplit "::" "A::B::C").getLastD "" ∈ collectReferences fileC4.elements ∧
      ¬ "A::B::C" ∈ collectReferences fileC4.elements) :=
  ⟨C4_unused_import_reporting.2.1 fileC4s partC4 "X::C"
      (by simp [elemsIn, fileC4s, impC4, partC4, Element.body]) rfl (by decide),
   C4_unused_import_reporting.2.2 fileC4 impC4 "A::B::C"
      (by simp [collectImports, fileC4, impC4, Element.kind, Element.body])
      rfl rfl (by decide) (by decide)⟩

end SysLint
